import Mathlib

/-!
Verification of the Marching Band database core (band.cpp).

The program keeps its state in six SQLite tables (STUDENTS, COMPLIANCE,
INSTRUMENT_TYPES, INSTRUMENTS, UNIFORMS, SHAKOS).  We embed each table as a
list of records plus, for the AUTOINCREMENT tables, the next id to be
allocated.  Each menu operation of the program is embedded as a pure
function from the database state (and the operator inputs, and the
current date) to a new state together with the observable outcome, which
matches the message the program prints.  SQLite constraint enforcement
(PRIMARY KEY, UNIQUE, CHECK, FOREIGN KEY with foreign_keys = ON) is part of
the embedded operation: a statement that would violate a constraint fails
and leaves the state unchanged, as SQLite aborts the statement.
-/

/-- STUDENTS row (band.cpp ensureTables, lines 164-175).  SECTION is renamed
to sectionName because section is a Lean keyword. -/
structure Student where
  id : Int
  fname : String
  lname : String
  classification : String
  sectionName : String
  shirtSize : Option String
  shoeSize : Option String
deriving DecidableEq

/-- COMPLIANCE row (ensureTables, lines 178-187).  DUES_PAID is an INTEGER
restricted to 0/1 by a CHECK constraint; GPA is REAL, embedded as Rat. -/
structure Compliance where
  studentId : Int
  creditHours : Int
  gpa : Rat
  duesPaid : Int
  lastVerified : String
deriving DecidableEq

/-- INSTRUMENT_TYPES row (ensureTables, lines 218-224). -/
structure InstrumentType where
  id : Int
  typeName : String
  sectionName : String
deriving DecidableEq

/-- INSTRUMENTS row (ensureTables, lines 226-237).  SERIAL and
CHECKED_OUT_TO are both UNIQUE columns. -/
structure Instrument where
  id : Int
  typeId : Int
  serial : Option String
  conditionNotes : Option String
  checkedOutTo : Option Int
  checkedOutDate : Option String
deriving DecidableEq

/-- UNIFORMS row (ensureTables, lines 199-211).  CHECKED_OUT_TO is UNIQUE. -/
structure Uniform where
  id : Int
  coatSize : Option String
  pantSize : Option String
  coatNumber : Option String
  pantNumber : Option String
  conditionNotes : Option String
  checkedOutTo : Option Int
  checkedOutDate : Option String
deriving DecidableEq

/-- SHAKOS row (ensureTables, lines 239-248).  CHECKED_OUT_TO is UNIQUE. -/
structure Shako where
  id : Int
  size : Option String
  conditionNotes : Option String
  checkedOutTo : Option Int
  checkedOutDate : Option String
deriving DecidableEq

/-- The whole database state.  nextInstrumentId / nextUniformId /
nextShakoId model the AUTOINCREMENT sequence of the three item tables. -/
structure DB where
  students : List Student
  compliance : List Compliance
  instrumentTypes : List InstrumentType
  instruments : List Instrument
  uniforms : List Uniform
  shakos : List Shako
  nextInstrumentId : Int
  nextUniformId : Int
  nextShakoId : Int
deriving DecidableEq

/-- The database right after ensureTables on a fresh band.db: empty tables
and the 9 seeded instrument types (ensureTables, lines 258-269). -/
def initDB : DB where
  students := []
  compliance := []
  instrumentTypes :=
    [⟨1, "PICCOLO", "WOODWIND"⟩, ⟨2, "CLARINET", "WOODWIND"⟩,
     ⟨3, "SAXOPHONE", "WOODWIND"⟩, ⟨4, "TRUMPET", "BRASS"⟩,
     ⟨5, "TROMBONE", "BRASS"⟩, ⟨6, "SOUSAPHONE", "BRASS"⟩,
     ⟨7, "MELLOPHONE", "BRASS"⟩, ⟨8, "PERCUSSION", "PERCUSSION"⟩,
     ⟨9, "COLOR_GUARD", "AUXILIARY"⟩]
  instruments := []
  uniforms := []
  shakos := []
  nextInstrumentId := 1
  nextUniformId := 1
  nextShakoId := 1

/-- studentExists (band.cpp lines 101-109): SELECT 1 FROM STUDENTS WHERE
STUDENT_ID=?. -/
def studentExistsB (db : DB) (sid : Int) : Bool :=
  db.students.any (fun s => s.id == sid)

/-- getStudentSection (lines 111-128): SELECT SECTION FROM STUDENTS WHERE
STUDENT_ID=?; returns the section of the first matching row. -/
def getStudentSection (db : DB) (sid : Int) : Option String :=
  (db.students.find? (fun s => s.id == sid)).map (fun s => s.sectionName)

/-- The five allowed SECTION values (CHECK constraint in ensureTables). -/
def validSection (s : String) : Bool :=
  s == "WOODWIND" || s == "BRASS" || s == "PERCUSSION" || s == "AUXILIARY" || s == "DM"

/-- The non-null values of a checkout column: SELECT CHECKED_OUT_TO ...
WHERE CHECKED_OUT_TO IS NOT NULL, i.e. the current holders of a kind. -/
def holdersOf (g : α → Option Int) (l : List α) : List Int :=
  l.filterMap g

/-- SELECT ... FROM INSTRUMENT_TYPES WHERE TYPE_ID=? (first row). -/
def typeFor (ts : List InstrumentType) (tid : Int) : Option InstrumentType :=
  ts.find? (fun t => t.id == tid)

/-- addStudent (lines 430-503): INSERT INTO STUDENTS fails on a duplicate
STUDENT_ID (PRIMARY KEY) or an invalid SECTION (CHECK); on success the
function then runs INSERT OR IGNORE INTO COMPLIANCE with zero defaults and
LAST_VERIFIED_DATE = the current date. -/
def addStudent (db : DB) (id : Int) (fn ln cls sec : String)
    (shirt shoe : Option String) (today : String) : DB × Bool :=
  if !(validSection sec) then (db, false)
  else if db.students.any (fun s => s.id == id) then (db, false)
  else if db.compliance.any (fun c => c.studentId == id) then
    ({ db with students := db.students ++ [(⟨id, fn, ln, cls, sec, shirt, shoe⟩ : Student)] }, true)
  else
    ({ db with
        students := db.students ++ [(⟨id, fn, ln, cls, sec, shirt, shoe⟩ : Student)],
        compliance := db.compliance ++ [(⟨id, 0, 0, 0, today⟩ : Compliance)] }, true)

/-- Outcome of a checkout operation, one constructor per distinct message
the program prints. -/
inductive CheckoutResult where
  /-- "This student ID does not exist." -/
  | noStudent : CheckoutResult
  /-- "No instruments available for that view." (function aborts) -/
  | noneAvailable : CheckoutResult
  /-- "Checkout failed: ..." (the SQL statement hit a constraint) -/
  | constraintFailed : CheckoutResult
  /-- The "Invaild. Instrument already checked out OR that ID ..." message -/
  | invalidItem : CheckoutResult
  /-- "... checked out." -/
  | success : CheckoutResult
deriving DecidableEq

/-- Outcome of a return operation, one constructor per message. -/
inductive ReturnResult where
  /-- "None." (no checked-out items; function aborts before prompting) -/
  | noneCheckedOut : ReturnResult
  /-- "No ... with that ID." (UPDATE matched no row) -/
  | noSuchItem : ReturnResult
  /-- "... returned." -/
  | returned : ReturnResult
deriving DecidableEq

/-- The row set behind the unfiltered available-instrument listing in
checkoutInstrument (lines 708-713): available instruments joined to their
type. -/
def availableInstrumentsAll (db : DB) : List Instrument :=
  db.instruments.filter
    (fun it => it.checkedOutTo == none && (typeFor db.instrumentTypes it.typeId).isSome)

/-- The section-filtered available-instrument listing (lines 701-706). -/
def availableInstrumentsBySection (db : DB) (sec : String) : List Instrument :=
  db.instruments.filter
    (fun it => it.checkedOutTo == none &&
      ((typeFor db.instrumentTypes it.typeId).map (fun t => t.sectionName) == some sec))

/-- The row transformation of the UPDATE in checkoutInstrument
(lines 758-761): SET CHECKED_OUT_TO=?, CHECKED_OUT_DATE=the current date
WHERE INSTRUMENT_ID=? AND CHECKED_OUT_TO IS NULL. -/
def instrCheckoutUpdate (items : List Instrument) (iid sid : Int) (today : String) :
    List Instrument :=
  items.map (fun it =>
    if it.id == iid && it.checkedOutTo == none
    then { it with checkedOutTo := some sid, checkedOutDate := some today }
    else it)

/-- checkoutInstrument (lines 686-782).  The student must exist
(getStudentSection); the (possibly section-filtered) available list must be
non-empty or the function aborts; then the UPDATE runs: zero matched rows
gives the "Invaild" message, a UNIQUE violation on CHECKED_OUT_TO makes the
statement fail, otherwise the item is bound. -/
def checkoutInstrument (db : DB) (sid : Int) (filterBySection : Bool) (iid : Int)
    (today : String) : DB × CheckoutResult :=
  match getStudentSection db sid with
  | none => (db, .noStudent)
  | some sec =>
    let avail := if filterBySection then availableInstrumentsBySection db sec
                 else availableInstrumentsAll db
    if avail.isEmpty then (db, .noneAvailable)
    else if db.instruments.countP (fun it => it.id == iid && it.checkedOutTo == none) == 0
    then (db, .invalidItem)
    else
      let newItems := instrCheckoutUpdate db.instruments iid sid today
      if (holdersOf (fun it => it.checkedOutTo) newItems).Nodup
      then ({ db with instruments := newItems }, .success)
      else (db, .constraintFailed)

/-- The row transformation of the UPDATE in returnInstrument
(lines 824-827): SET CHECKED_OUT_TO=NULL, CHECKED_OUT_DATE=NULL WHERE
INSTRUMENT_ID=? — with no condition on the item being checked out. -/
def instrClear (items : List Instrument) (iid : Int) : List Instrument :=
  items.map (fun it =>
    if it.id == iid then { it with checkedOutTo := none, checkedOutDate := none } else it)

/-- returnInstrument (lines 784-844).  If the checked-out listing (a join
with INSTRUMENT_TYPES) is empty the function aborts with "None.";
otherwise the UPDATE clears the row with the given id, reporting success
whenever such a row exists, checked out or not. -/
def returnInstrument (db : DB) (iid : Int) : DB × ReturnResult :=
  if (db.instruments.filter (fun it =>
        it.checkedOutTo != none && (typeFor db.instrumentTypes it.typeId).isSome)).isEmpty
  then (db, .noneCheckedOut)
  else if db.instruments.countP (fun it => it.id == iid) == 0 then (db, .noSuchItem)
  else ({ db with instruments := instrClear db.instruments iid }, .returned)

/-- addInstrumentToInventory (lines 634-684): INSERT INTO INSTRUMENTS
(TYPE_ID, SERIAL, CONDITION_NOTES).  The insert fails when TYPE_ID has no
matching INSTRUMENT_TYPES row (foreign_keys = ON) or when a non-null
SERIAL duplicates an existing one (SERIAL TEXT UNIQUE); on success the id
is the AUTOINCREMENT value and the item starts available. -/
def addInstrumentToInventory (db : DB) (tid : Int) (serial notes : Option String) :
    DB × Bool :=
  if (typeFor db.instrumentTypes tid).isNone then (db, false)
  else if (match serial with
           | none => false
           | some s => db.instruments.any (fun it => it.serial == some s))
  then (db, false)
  else
    ({ db with
        instruments := db.instruments ++ [⟨db.nextInstrumentId, tid, serial, notes, none, none⟩],
        nextInstrumentId := db.nextInstrumentId + 1 }, true)

/-- checkoutUniform (lines 880-939): after the studentExists guard it runs
INSERT INTO UNIFORMS (..., CHECKED_OUT_TO, CHECKED_OUT_DATE) VALUES
(..., ?, the current date) — checking out a uniform CREATES a new row.  The
UNIQUE index on CHECKED_OUT_TO rejects the insert when the student already
holds a uniform. -/
def checkoutUniform (db : DB) (sid : Int)
    (coatSize pantSize coatNumber pantNumber notes : Option String) (today : String) :
    DB × CheckoutResult :=
  if !(studentExistsB db sid) then (db, .noStudent)
  else if (holdersOf (fun u => u.checkedOutTo) db.uniforms).contains sid
  then (db, .constraintFailed)
  else
    ({ db with
        uniforms := db.uniforms ++
          [⟨db.nextUniformId, coatSize, pantSize, coatNumber, pantNumber, notes,
            some sid, some today⟩],
        nextUniformId := db.nextUniformId + 1 }, .success)

/-- The UPDATE of returnUniform (lines 982-983). -/
def uniformClear (items : List Uniform) (uid : Int) : List Uniform :=
  items.map (fun u =>
    if u.id == uid then { u with checkedOutTo := none, checkedOutDate := none } else u)

/-- returnUniform (lines 941-1000): aborts with "None." when no uniform is
checked out, otherwise clears the row with the given id (no condition on
it being checked out). -/
def returnUniform (db : DB) (uid : Int) : DB × ReturnResult :=
  if (db.uniforms.filter (fun u => u.checkedOutTo != none)).isEmpty
  then (db, .noneCheckedOut)
  else if db.uniforms.countP (fun u => u.id == uid) == 0 then (db, .noSuchItem)
  else ({ db with uniforms := uniformClear db.uniforms uid }, .returned)

/-- checkoutShako (lines 1037-1080): like checkoutUniform, the INSERT
creates a new checked-out SHAKOS row. -/
def checkoutShako (db : DB) (sid : Int) (size notes : Option String) (today : String) :
    DB × CheckoutResult :=
  if !(studentExistsB db sid) then (db, .noStudent)
  else if (holdersOf (fun s => s.checkedOutTo) db.shakos).contains sid
  then (db, .constraintFailed)
  else
    ({ db with
        shakos := db.shakos ++ [⟨db.nextShakoId, size, notes, some sid, some today⟩],
        nextShakoId := db.nextShakoId + 1 }, .success)

/-- The UPDATE of returnShako (lines 1120-1121). -/
def shakoClear (items : List Shako) (hid : Int) : List Shako :=
  items.map (fun s =>
    if s.id == hid then { s with checkedOutTo := none, checkedOutDate := none } else s)

/-- returnShako (lines 1082-1138). -/
def returnShako (db : DB) (hid : Int) : DB × ReturnResult :=
  if (db.shakos.filter (fun s => s.checkedOutTo != none)).isEmpty
  then (db, .noneCheckedOut)
  else if db.shakos.countP (fun s => s.id == hid) == 0 then (db, .noSuchItem)
  else ({ db with shakos := shakoClear db.shakos hid }, .returned)

/-- updateStudentCompliance (lines 1173-1215): a studentExists guard, then
INSERT ... ON CONFLICT(STUDENT_ID) DO UPDATE (an upsert).  The CHECK
constraints CREDIT_HOURS >= 0 and DUES_PAID IN (0,1) abort the statement
when violated (the console validators make that unreachable). -/
def updateStudentCompliance (db : DB) (sid : Int) (hours : Int) (gpa : Rat)
    (dues : Int) (today : String) : DB × Bool :=
  if !(studentExistsB db sid) then (db, false)
  else if hours < 0 || !(dues == 0 || dues == 1) then (db, false)
  else if db.compliance.any (fun c => c.studentId == sid) then
    ({ db with compliance := db.compliance.map (fun c =>
        if c.studentId == sid
        then { c with creditHours := hours, gpa := gpa, duesPaid := dues, lastVerified := today }
        else c) }, true)
  else ({ db with compliance := db.compliance ++ [(⟨sid, hours, gpa, dues, today⟩ : Compliance)] }, true)

/-- LEFT JOIN COMPLIANCE c ON c.STUDENT_ID = s.STUDENT_ID (first row). -/
def lookupCompliance (db : DB) (sid : Int) : Option Compliance :=
  db.compliance.find? (fun c => c.studentId == sid)

/-- COALESCE(c.CREDIT_HOURS,0), COALESCE(c.GPA,0.0), COALESCE(c.DUES_PAID,0)
as used by all three read paths. -/
def coalescedCompliance (db : DB) (sid : Int) : Int × Rat × Int :=
  match lookupCompliance db sid with
  | some c => (c.creditHours, c.gpa, c.duesPaid)
  | none => (0, 0, 0)

/-- One output row of viewAllStudents (lines 505-548). -/
structure StudentRow where
  id : Int
  fname : String
  lname : String
  classification : String
  sectionName : String
  shirtSize : String
  shoeSize : String
  creditHours : Int
  gpa : Rat
  dues : Int
  elig : Bool
deriving DecidableEq

/-- The SELECT expression list of viewAllStudents for one student,
including the SQL eligibility expression
(COALESCE(CREDIT_HOURS,0) >= 12 AND COALESCE(GPA,0.0) >= 3.0 AND
COALESCE(DUES_PAID,0)=1) AS ELIGIBLE. -/
def viewRowOf (db : DB) (s : Student) : StudentRow :=
  let c := coalescedCompliance db s.id
  { id := s.id, fname := s.fname, lname := s.lname,
    classification := s.classification, sectionName := s.sectionName,
    shirtSize := s.shirtSize.getD "", shoeSize := s.shoeSize.getD "",
    creditHours := c.1, gpa := c.2.1, dues := c.2.2,
    elig := decide (12 ≤ c.1) && decide ((3 : Rat) ≤ c.2.1) && (c.2.2 == 1) }

/-- ORDER BY s.SECTION, s.LNAME, s.FNAME of viewAllStudents. -/
def studentOrderKey (r : StudentRow) : Lex (String × Lex (String × String)) :=
  toLex (r.sectionName, toLex (r.lname, r.fname))

/-- The row order of viewAllStudents. -/
def studentRowLe (a b : StudentRow) : Prop :=
  studentOrderKey a ≤ studentOrderKey b

instance : DecidableRel studentRowLe :=
  fun a b => inferInstanceAs (Decidable (studentOrderKey a ≤ studentOrderKey b))

/-- viewAllStudents (lines 505-548): the LEFT JOIN rows, ordered by
SECTION, LNAME, FNAME. -/
def viewAllStudents (db : DB) : List StudentRow :=
  List.insertionSort studentRowLe (db.students.map (viewRowOf db))

/-- The profile printed by findStudentById (lines 550-595), with the C++
eligibility computation hrs >= 12 && gpa >= 3.0 && dues == 1. -/
structure StudentProfile where
  id : Int
  fname : String
  lname : String
  classification : String
  sectionName : String
  shirtSize : String
  shoeSize : String
  creditHours : Int
  gpa : Rat
  dues : Int
  elig : Bool
  lastVerified : String
deriving DecidableEq

/-- The profile row selected by findStudentById for one student, with the
C++ eligibility computation hrs >= 12 && gpa >= 3.0 && dues == 1
(lines 572-588). -/
def profileOf (db : DB) (s : Student) : StudentProfile :=
  let c := coalescedCompliance db s.id
  { id := s.id, fname := s.fname, lname := s.lname,
    classification := s.classification, sectionName := s.sectionName,
    shirtSize := s.shirtSize.getD "", shoeSize := s.shoeSize.getD "",
    creditHours := c.1, gpa := c.2.1, dues := c.2.2,
    elig := decide (12 ≤ c.1) && decide ((3 : Rat) ≤ c.2.1) && (c.2.2 == 1),
    lastVerified := ((lookupCompliance db s.id).map (fun x => x.lastVerified)).getD "" }

/-- findStudentById (lines 550-595): WHERE s.STUDENT_ID=? on the LEFT JOIN;
"No student found with that ID." when no row comes back. -/
def findStudentByIdFn (db : DB) (sid : Int) : Option StudentProfile :=
  (db.students.find? (fun s => s.id == sid)).map (profileOf db)

/-- One row of showEligibilityReport (lines 1217-1272), with the three
sub-predicates OK_HRS, OK_GPA, OK_DUES and ELIG. -/
structure EligRow where
  id : Int
  fname : String
  lname : String
  classification : String
  sectionName : String
  creditHours : Int
  gpa : Rat
  dues : Int
  lastVerified : String
  okHours : Bool
  okGpa : Bool
  okDues : Bool
  elig : Bool
deriving DecidableEq

/-- The SELECT expression list of showEligibilityReport for one student. -/
def eligRowOf (db : DB) (s : Student) : EligRow :=
  let c := coalescedCompliance db s.id
  { id := s.id, fname := s.fname, lname := s.lname,
    classification := s.classification, sectionName := s.sectionName,
    creditHours := c.1, gpa := c.2.1, dues := c.2.2,
    lastVerified := ((lookupCompliance db s.id).map (fun x => x.lastVerified)).getD "",
    okHours := decide (12 ≤ c.1), okGpa := decide ((3 : Rat) ≤ c.2.1),
    okDues := c.2.2 == 1,
    elig := decide (12 ≤ c.1) && decide ((3 : Rat) ≤ c.2.1) && (c.2.2 == 1) }

/-- ORDER BY ELIG ASC, s.SECTION, s.LNAME, s.FNAME of the report (false
sorts before true since ELIG is the 0/1 SQL expression). -/
def eligOrderKey (r : EligRow) : Lex (Int × Lex (String × Lex (String × String))) :=
  toLex ((if r.elig then 1 else 0), toLex (r.sectionName, toLex (r.lname, r.fname)))

/-- The row order of showEligibilityReport. -/
def eligRowLe (a b : EligRow) : Prop :=
  eligOrderKey a ≤ eligOrderKey b

instance : DecidableRel eligRowLe :=
  fun a b => inferInstanceAs (Decidable (eligOrderKey a ≤ eligOrderKey b))

/-- showEligibilityReport (lines 1217-1272). -/
def showEligibilityReport (db : DB) : List EligRow :=
  List.insertionSort eligRowLe (db.students.map (eligRowOf db))

/-- The first ORDER BY key of the three assignments views:
(CHECKED_OUT_TO IS NULL) DESC puts available items (value 1) before
checked-out items (value 0); ascending on this rank is the same order. -/
def availFirstRank (co : Option Int) : Int :=
  if co = none then 0 else 1

/-- ORDER BY (CHECKED_OUT_TO IS NULL) DESC, t.SECTION, t.TYPE_NAME,
i.INSTRUMENT_ID of viewInstrumentAssignments (line 853). -/
def instrAssignKey (ts : List InstrumentType) (it : Instrument) :
    Lex (Int × Lex (String × Lex (String × Int))) :=
  toLex (availFirstRank it.checkedOutTo,
    toLex (((typeFor ts it.typeId).map (fun t => t.sectionName)).getD "",
      toLex (((typeFor ts it.typeId).map (fun t => t.typeName)).getD "", it.id)))

/-- The row order of viewInstrumentAssignments. -/
def instrAssignLe (ts : List InstrumentType) (a b : Instrument) : Prop :=
  instrAssignKey ts a ≤ instrAssignKey ts b

instance (ts : List InstrumentType) : DecidableRel (instrAssignLe ts) :=
  fun a b => inferInstanceAs (Decidable (instrAssignKey ts a ≤ instrAssignKey ts b))

/-- viewInstrumentAssignments (lines 846-877): all instruments joined to
their type, ordered as above. -/
def viewInstrumentAssignments (db : DB) : List Instrument :=
  List.insertionSort (instrAssignLe db.instrumentTypes)
    (db.instruments.filter (fun it => (typeFor db.instrumentTypes it.typeId).isSome))

/-- ORDER BY (CHECKED_OUT_TO IS NULL) DESC, UNIFORM_ID of
viewUniformAssignments (line 1008). -/
def uniformAssignKey (u : Uniform) : Lex (Int × Int) :=
  toLex (availFirstRank u.checkedOutTo, u.id)

/-- The row order of viewUniformAssignments. -/
def uniformAssignLe (a b : Uniform) : Prop :=
  uniformAssignKey a ≤ uniformAssignKey b

instance : DecidableRel uniformAssignLe :=
  fun a b => inferInstanceAs (Decidable (uniformAssignKey a ≤ uniformAssignKey b))

/-- viewUniformAssignments (lines 1002-1034). -/
def viewUniformAssignments (db : DB) : List Uniform :=
  List.insertionSort uniformAssignLe db.uniforms

/-- ORDER BY (CHECKED_OUT_TO IS NULL) DESC, SHAKO_ID of
viewShakoAssignments (line 1144). -/
def shakoAssignKey (s : Shako) : Lex (Int × Int) :=
  toLex (availFirstRank s.checkedOutTo, s.id)

/-- The row order of viewShakoAssignments. -/
def shakoAssignLe (a b : Shako) : Prop :=
  shakoAssignKey a ≤ shakoAssignKey b

instance : DecidableRel shakoAssignLe :=
  fun a b => inferInstanceAs (Decidable (shakoAssignKey a ≤ shakoAssignKey b))

/-- viewShakoAssignments (lines 1140-1170). -/
def viewShakoAssignments (db : DB) : List Shako :=
  List.insertionSort shakoAssignLe db.shakos

/-- Modelled from the spec (section 4.4 Eligibility Engine): the pure
eligibility function eligible = (creditHours >= 12) AND (gpa >= 3.0) AND
(duesPaid == true), with duesPaid the stored 0/1 integer. -/
def specEligible (ch : Int) (g : Rat) (d : Int) : Bool :=
  decide (12 ≤ ch) && decide ((3 : Rat) ≤ g) && (d == 1)

/-- The per-kind single-holder well-formedness of a holder list against a
student table: every holder exists and no student holds two items of the
kind (the CHECKED_OUT_TO foreign key plus the UNIQUE index). -/
def HoldersOk (students : List Student) (hl : List Int) : Prop :=
  (∀ x ∈ hl, ∃ s ∈ students, s.id = x) ∧ hl.Nodup

/-- The claim C1 invariant over the three resource kinds. -/
def SingleHolderInv (db : DB) : Prop :=
  HoldersOk db.students (holdersOf (fun it => it.checkedOutTo) db.instruments) ∧
  HoldersOk db.students (holdersOf (fun u => u.checkedOutTo) db.uniforms) ∧
  HoldersOk db.students (holdersOf (fun s => s.checkedOutTo) db.shakos)

instance (db : DB) : Decidable (SingleHolderInv db) := by
  unfold SingleHolderInv HoldersOk
  infer_instance

/-! Helper lemmas -/

theorem map_eq_self_of_eq (l : List α) (f : α → α) (h : ∀ a ∈ l, f a = a) :
    l.map f = l := by
  induction l with
  | nil => rfl
  | cons a t ih =>
    simp only [List.map_cons, h a (List.mem_cons_self a t)]
    rw [ih (fun x hx => h x (List.mem_cons_of_mem a hx))]

theorem filterMap_map_sublist (l : List α) (f : α → α) (g : α → Option β)
    (h : ∀ a ∈ l, g (f a) = g a ∨ g (f a) = none) :
    ((l.map f).filterMap g).Sublist (l.filterMap g) := by
  induction l with
  | nil => simp
  | cons a t ih =>
    have ht : ∀ x ∈ t, g (f x) = g x ∨ g (f x) = none :=
      fun x hx => h x (List.mem_cons_of_mem a hx)
    rcases h a (List.mem_cons_self a t) with heq | hnone
    · simp only [List.map_cons, List.filterMap_cons, heq]
      cases g a with
      | none => exact ih ht
      | some b => exact (ih ht).cons₂ b
    · simp only [List.map_cons, List.filterMap_cons, hnone]
      cases g a with
      | none => exact ih ht
      | some b => exact (ih ht).cons b

theorem countP_key_le_one (l : List α) (f : α → Int) (k : Int)
    (h : (l.map f).Nodup) : l.countP (fun a => f a == k) ≤ 1 := by
  induction l with
  | nil => simp
  | cons a t ih =>
    simp only [List.map_cons, List.nodup_cons] at h
    by_cases hak : f a = k
    · have : t.countP (fun x => f x == k) = 0 := by
        rw [List.countP_eq_zero]
        intro x hx
        simp only [beq_iff_eq]
        intro hfx
        exact h.1 (hak ▸ hfx ▸ List.mem_map_of_mem f hx)
      rw [List.countP_cons]
      simp [hak, this]
    · rw [List.countP_cons]
      simp only [beq_iff_eq, hak, if_false, ite_false]
      simpa using ih h.2

/-! Facts about the instrument checkout UPDATE -/

theorem instrCheckoutUpdate_cons (a : Instrument) (t : List Instrument) (iid sid : Int)
    (today : String) :
    instrCheckoutUpdate (a :: t) iid sid today =
      (if a.id == iid && a.checkedOutTo == none
       then { a with checkedOutTo := some sid, checkedOutDate := some today } else a)
        :: instrCheckoutUpdate t iid sid today := rfl

theorem instrCheckoutUpdate_map_id (items : List Instrument) (iid sid : Int) (today : String) :
    (instrCheckoutUpdate items iid sid today).map (fun it => it.id) =
      items.map (fun it => it.id) := by
  unfold instrCheckoutUpdate
  rw [List.map_map]
  apply List.map_congr_left
  intro a _
  by_cases h : (a.id == iid && a.checkedOutTo == none) = true
  · rw [Function.comp_apply, if_pos h]
  · rw [Function.comp_apply, if_neg h]

theorem instrCheckoutUpdate_map_typeId (items : List Instrument) (iid sid : Int)
    (today : String) :
    (instrCheckoutUpdate items iid sid today).map (fun it => it.typeId) =
      items.map (fun it => it.typeId) := by
  unfold instrCheckoutUpdate
  rw [List.map_map]
  apply List.map_congr_left
  intro a _
  by_cases h : (a.id == iid && a.checkedOutTo == none) = true
  · rw [Function.comp_apply, if_pos h]
  · rw [Function.comp_apply, if_neg h]

theorem instrCheckoutUpdate_length (items : List Instrument) (iid sid : Int) (today : String) :
    (instrCheckoutUpdate items iid sid today).length = items.length :=
  List.length_map items _

theorem count_holders_checkoutUpdate (items : List Instrument) (iid sid : Int) (today : String) :
    (holdersOf (fun it => it.checkedOutTo) (instrCheckoutUpdate items iid sid today)).count sid
      = items.countP (fun it => it.id == iid && it.checkedOutTo == none)
        + (holdersOf (fun it => it.checkedOutTo) items).count sid := by
  induction items with
  | nil => simp [holdersOf, instrCheckoutUpdate]
  | cons a t ih =>
    rw [instrCheckoutUpdate_cons]
    by_cases hp : (a.id == iid && a.checkedOutTo == none) = true
    · have hco : a.checkedOutTo = none := by
        have := (Bool.and_eq_true _ _).mp hp
        simpa using this.2
      rw [if_pos hp]
      unfold holdersOf at *
      rw [List.filterMap_cons_some (f := fun it : Instrument => it.checkedOutTo) rfl,
        List.filterMap_cons_none (f := fun it : Instrument => it.checkedOutTo) hco,
        List.countP_cons_of_pos (fun it : Instrument => it.id == iid && it.checkedOutTo == none) _ hp,
        List.count_cons]
      simp only [beq_self_eq_true, if_true]
      omega
    · rw [if_neg hp]
      unfold holdersOf at *
      rw [List.countP_cons_of_neg (fun it : Instrument => it.id == iid && it.checkedOutTo == none) _ hp]
      cases hco : a.checkedOutTo with
      | none =>
        rw [List.filterMap_cons_none (f := fun it : Instrument => it.checkedOutTo) hco,
          List.filterMap_cons_none (f := fun it : Instrument => it.checkedOutTo) hco]
        exact ih
      | some x =>
        rw [List.filterMap_cons_some (f := fun it : Instrument => it.checkedOutTo) hco,
          List.filterMap_cons_some (f := fun it : Instrument => it.checkedOutTo) hco, List.count_cons,
          List.count_cons]
        omega

theorem count_holders_checkoutUpdate_ne (items : List Instrument) (iid sid x : Int)
    (today : String) (hx : x ≠ sid) :
    (holdersOf (fun it => it.checkedOutTo) (instrCheckoutUpdate items iid sid today)).count x
      = (holdersOf (fun it => it.checkedOutTo) items).count x := by
  induction items with
  | nil => simp [holdersOf, instrCheckoutUpdate]
  | cons a t ih =>
    rw [instrCheckoutUpdate_cons]
    by_cases hp : (a.id == iid && a.checkedOutTo == none) = true
    · have hco : a.checkedOutTo = none := by
        have := (Bool.and_eq_true _ _).mp hp
        simpa using this.2
      rw [if_pos hp]
      unfold holdersOf at *
      rw [List.filterMap_cons_some (f := fun it : Instrument => it.checkedOutTo) rfl,
        List.filterMap_cons_none (f := fun it : Instrument => it.checkedOutTo) hco, List.count_cons]
      have hsx : (sid == x) = false := by simpa using (fun h => hx h.symm)
      rw [hsx]
      simpa using ih
    · rw [if_neg hp]
      unfold holdersOf at *
      cases hco : a.checkedOutTo with
      | none =>
        rw [List.filterMap_cons_none (f := fun it : Instrument => it.checkedOutTo) hco,
          List.filterMap_cons_none (f := fun it : Instrument => it.checkedOutTo) hco]
        exact ih
      | some y =>
        rw [List.filterMap_cons_some (f := fun it : Instrument => it.checkedOutTo) hco,
          List.filterMap_cons_some (f := fun it : Instrument => it.checkedOutTo) hco, List.count_cons,
          List.count_cons, ih]

theorem mem_holders_checkoutUpdate (items : List Instrument) (iid sid x : Int) (today : String)
    (hx : x ∈ holdersOf (fun it => it.checkedOutTo) (instrCheckoutUpdate items iid sid today)) :
    x = sid ∨ x ∈ holdersOf (fun it => it.checkedOutTo) items := by
  unfold holdersOf instrCheckoutUpdate at *
  rw [List.mem_filterMap] at hx
  obtain ⟨a, ha, hax⟩ := hx
  rw [List.mem_map] at ha
  obtain ⟨b, hb, hba⟩ := ha
  by_cases hp : (b.id == iid && b.checkedOutTo == none) = true
  · rw [if_pos hp] at hba
    left
    rw [← hba] at hax
    simpa using hax.symm
  · rw [if_neg hp] at hba
    right
    rw [List.mem_filterMap]
    exact ⟨b, hb, hba ▸ hax⟩

theorem nodup_holders_checkoutUpdate_iff (items : List Instrument) (iid sid : Int)
    (today : String)
    (hold : (holdersOf (fun it => it.checkedOutTo) items).Nodup)
    (hcnt : items.countP (fun it => it.id == iid && it.checkedOutTo == none) = 1) :
    (holdersOf (fun it => it.checkedOutTo) (instrCheckoutUpdate items iid sid today)).Nodup
      ↔ sid ∉ holdersOf (fun it => it.checkedOutTo) items := by
  rw [List.nodup_iff_count_le_one]
  constructor
  · intro h hmem
    have h1 := h sid
    rw [count_holders_checkoutUpdate, hcnt] at h1
    have : 0 < (holdersOf (fun it => it.checkedOutTo) items).count sid :=
      List.count_pos_iff.mpr hmem
    omega
  · intro hni x
    by_cases hx : x = sid
    · subst hx
      rw [count_holders_checkoutUpdate, hcnt]
      have : (holdersOf (fun it => it.checkedOutTo) items).count x = 0 :=
        List.count_eq_zero.mpr hni
      omega
    · rw [count_holders_checkoutUpdate_ne items iid sid x today hx]
      exact List.nodup_iff_count_le_one.mp hold x

/-! Support lemmas about guards and membership -/

theorem studentExistsB_iff (db : DB) (sid : Int) :
    studentExistsB db sid = true ↔ ∃ s ∈ db.students, s.id = sid := by
  simp [studentExistsB, List.any_eq_true]

theorem getStudentSection_some_of_exists (db : DB) (sid : Int)
    (h : studentExistsB db sid = true) : ∃ sec, getStudentSection db sid = some sec := by
  rw [studentExistsB_iff] at h
  obtain ⟨s, hs, hid⟩ := h
  have : (db.students.find? (fun s => s.id == sid)).isSome = true :=
    List.find?_isSome.mpr ⟨s, hs, by simpa using hid⟩
  obtain ⟨t, ht⟩ := Option.isSome_iff_exists.mp this
  exact ⟨t.sectionName, by simp [getStudentSection, ht]⟩

theorem studentExistsB_of_getStudentSection (db : DB) (sid : Int) (sec : String)
    (h : getStudentSection db sid = some sec) : studentExistsB db sid = true := by
  unfold getStudentSection at h
  cases hf : db.students.find? (fun s => s.id == sid) with
  | none => rw [hf] at h; simp at h
  | some s =>
    have hm := List.mem_of_find?_eq_some hf
    have hp := List.find?_some hf
    exact (studentExistsB_iff db sid).mpr ⟨s, hm, by simpa using hp⟩

theorem mem_instrCheckoutUpdate_of_not_match (items : List Instrument) (iid sid : Int)
    (today : String) (it : Instrument) (hm : it ∈ items)
    (h : ¬(it.id == iid && it.checkedOutTo == none) = true) :
    it ∈ instrCheckoutUpdate items iid sid today := by
  unfold instrCheckoutUpdate
  rw [List.mem_map]
  exact ⟨it, hm, if_neg h⟩

theorem updated_mem_instrCheckoutUpdate (items : List Instrument) (iid sid : Int)
    (today : String) (it : Instrument) (hm : it ∈ items)
    (h : (it.id == iid && it.checkedOutTo == none) = true) :
    { it with checkedOutTo := some sid, checkedOutDate := some today }
      ∈ instrCheckoutUpdate items iid sid today := by
  unfold instrCheckoutUpdate
  rw [List.mem_map]
  exact ⟨it, hm, if_pos h⟩

/-! Characterization of checkoutInstrument -/

theorem checkoutInstrument_cases (db : DB) (sid : Int) (fb : Bool) (iid : Int)
    (today : String) :
    ((checkoutInstrument db sid fb iid today).2 = .success ∧
     (checkoutInstrument db sid fb iid today).1 =
       { db with instruments := instrCheckoutUpdate db.instruments iid sid today } ∧
     (holdersOf (fun it : Instrument => it.checkedOutTo)
        (instrCheckoutUpdate db.instruments iid sid today)).Nodup ∧
     studentExistsB db sid = true ∧
     db.instruments.countP (fun it => it.id == iid && it.checkedOutTo == none) ≠ 0)
    ∨ ((checkoutInstrument db sid fb iid today).2 ≠ .success ∧
       (checkoutInstrument db sid fb iid today).1 = db) := by
  unfold checkoutInstrument
  cases hs : getStudentSection db sid
  · right
    exact ⟨by simp, rfl⟩
  · dsimp only
    split
    all_goals
      split
      · right
        exact ⟨by simp, rfl⟩
      · split
        · right
          exact ⟨by simp, rfl⟩
        · rename_i hcnt
          split
          · rename_i hnd
            left
            refine ⟨rfl, rfl, hnd, studentExistsB_of_getStudentSection db sid _ hs, ?_⟩
            simpa using hcnt
          · right
            exact ⟨by simp, rfl⟩

theorem checkoutInstrument_not_success_state (db : DB) (sid : Int) (fb : Bool) (iid : Int)
    (today : String)
    (h : (checkoutInstrument db sid fb iid today).2 ≠ .success) :
    (checkoutInstrument db sid fb iid today).1 = db := by
  rcases checkoutInstrument_cases db sid fb iid today with hc | hc
  · exact absurd hc.1 h
  · exact hc.2

theorem checkoutInstrument_success_state (db : DB) (sid : Int) (fb : Bool) (iid : Int)
    (today : String)
    (h : (checkoutInstrument db sid fb iid today).2 = .success) :
    (checkoutInstrument db sid fb iid today).1 =
      { db with instruments := instrCheckoutUpdate db.instruments iid sid today } := by
  rcases checkoutInstrument_cases db sid fb iid today with hc | hc
  · exact hc.2.1
  · exact absurd h hc.1

theorem checkoutInstrument_success_nodup_holders (db : DB) (sid : Int) (fb : Bool) (iid : Int)
    (today : String)
    (h : (checkoutInstrument db sid fb iid today).2 = .success) :
    (holdersOf (fun it : Instrument => it.checkedOutTo)
      (instrCheckoutUpdate db.instruments iid sid today)).Nodup := by
  rcases checkoutInstrument_cases db sid fb iid today with hc | hc
  · exact hc.2.2.1
  · exact absurd h hc.1

theorem checkoutInstrument_success_student (db : DB) (sid : Int) (fb : Bool) (iid : Int)
    (today : String)
    (h : (checkoutInstrument db sid fb iid today).2 = .success) :
    studentExistsB db sid = true := by
  rcases checkoutInstrument_cases db sid fb iid today with hc | hc
  · exact hc.2.2.2.1
  · exact absurd h hc.1

theorem checkoutInstrument_success_matched (db : DB) (sid : Int) (fb : Bool) (iid : Int)
    (today : String)
    (h : (checkoutInstrument db sid fb iid today).2 = .success) :
    ∃ it ∈ db.instruments, it.id = iid ∧ it.checkedOutTo = none := by
  rcases checkoutInstrument_cases db sid fb iid today with hc | hc
  · have hcnt := hc.2.2.2.2
    have hpos : 0 < db.instruments.countP
        (fun it => it.id == iid && it.checkedOutTo == none) := Nat.pos_of_ne_zero hcnt
    obtain ⟨it, hm, hp⟩ := List.countP_pos_iff.mp hpos
    have hb := (Bool.and_eq_true _ _).mp hp
    exact ⟨it, hm, by simpa using hb.1, by simpa using hb.2⟩
  · exact absurd h hc.1

theorem countP_avail_eq_one (items : List Instrument) (iid : Int)
    (hids : (items.map (fun it => it.id)).Nodup)
    (hex : ∃ it ∈ items, it.id = iid ∧ it.checkedOutTo = none) :
    items.countP (fun it => it.id == iid && it.checkedOutTo == none) = 1 := by
  obtain ⟨it, hm, hid, hco⟩ := hex
  have hpos : 0 < items.countP (fun it => it.id == iid && it.checkedOutTo == none) :=
    List.countP_pos_iff.mpr ⟨it, hm, by simp [hid, hco]⟩
  have hle : items.countP (fun it => it.id == iid && it.checkedOutTo == none)
      ≤ items.countP (fun it => it.id == iid) := by
    apply List.countP_mono_left
    intro x _ hx
    exact ((Bool.and_eq_true _ _).mp hx).1
  have hone : items.countP (fun it => it.id == iid) ≤ 1 :=
    countP_key_le_one items (fun it => it.id) iid hids
  omega

theorem checkoutInstrument_success_of (db : DB) (sid iid : Int) (today : String)
    (hids : (db.instruments.map (fun it => it.id)).Nodup)
    (hhold : (holdersOf (fun it : Instrument => it.checkedOutTo) db.instruments).Nodup)
    (hstu : studentExistsB db sid = true)
    (hitem : ∃ it ∈ db.instruments, it.id = iid ∧ it.checkedOutTo = none)
    (htype : ∀ it ∈ db.instruments, it.id = iid →
      (typeFor db.instrumentTypes it.typeId).isSome = true)
    (hni : sid ∉ holdersOf (fun it : Instrument => it.checkedOutTo) db.instruments) :
    (checkoutInstrument db sid false iid today).2 = .success := by
  obtain ⟨sec, hs⟩ := getStudentSection_some_of_exists db sid hstu
  have hcnt : db.instruments.countP (fun it => it.id == iid && it.checkedOutTo == none) = 1 :=
    countP_avail_eq_one db.instruments iid hids hitem
  obtain ⟨it0, hm0, hid0, hco0⟩ := hitem
  have hmem_avail : it0 ∈ availableInstrumentsAll db := by
    rw [availableInstrumentsAll, List.mem_filter]
    exact ⟨hm0, by simp [hco0, htype it0 hm0 hid0]⟩
  unfold checkoutInstrument
  rw [hs]
  dsimp only
  rw [if_neg (show ¬(false = true) by simp)]
  rw [if_neg (show ¬((availableInstrumentsAll db).isEmpty = true) from fun hc =>
    (List.ne_nil_of_mem hmem_avail) (List.isEmpty_iff.mp hc))]
  rw [if_neg (show ¬((db.instruments.countP
      (fun it => it.id == iid && it.checkedOutTo == none) == 0) = true) by simp [hcnt])]
  rw [if_pos ((nodup_holders_checkoutUpdate_iff db.instruments iid sid today hhold hcnt).mpr hni)]

theorem checkoutInstrument_success_not_holding (db : DB) (sid : Int) (fb : Bool) (iid : Int)
    (today : String)
    (hids : (db.instruments.map (fun it => it.id)).Nodup)
    (hhold : (holdersOf (fun it : Instrument => it.checkedOutTo) db.instruments).Nodup)
    (h : (checkoutInstrument db sid fb iid today).2 = .success) :
    sid ∉ holdersOf (fun it : Instrument => it.checkedOutTo) db.instruments := by
  have hnd := checkoutInstrument_success_nodup_holders db sid fb iid today h
  have hitem := checkoutInstrument_success_matched db sid fb iid today h
  have hcnt : db.instruments.countP (fun it => it.id == iid && it.checkedOutTo == none) = 1 :=
    countP_avail_eq_one db.instruments iid hids hitem
  exact (nodup_holders_checkoutUpdate_iff db.instruments iid sid today hhold hcnt).mp hnd

/-! Facts about the instrument return UPDATE -/

theorem instrClear_map_id (items : List Instrument) (iid : Int) :
    (instrClear items iid).map (fun it => it.id) = items.map (fun it => it.id) := by
  unfold instrClear
  rw [List.map_map]
  apply List.map_congr_left
  intro a _
  by_cases h : (a.id == iid) = true
  · rw [Function.comp_apply, if_pos h]
  · rw [Function.comp_apply, if_neg h]

theorem instrClear_map_typeId (items : List Instrument) (iid : Int) :
    (instrClear items iid).map (fun it => it.typeId) = items.map (fun it => it.typeId) := by
  unfold instrClear
  rw [List.map_map]
  apply List.map_congr_left
  intro a _
  by_cases h : (a.id == iid) = true
  · rw [Function.comp_apply, if_pos h]
  · rw [Function.comp_apply, if_neg h]

theorem instrClear_length (items : List Instrument) (iid : Int) :
    (instrClear items iid).length = items.length :=
  List.length_map items _

theorem holders_instrClear_sublist (items : List Instrument) (iid : Int) :
    (holdersOf (fun it : Instrument => it.checkedOutTo) (instrClear items iid)).Sublist
      (holdersOf (fun it : Instrument => it.checkedOutTo) items) := by
  unfold instrClear holdersOf
  apply filterMap_map_sublist
  intro a _
  by_cases h : (a.id == iid) = true
  · right
    rw [if_pos h]
  · left
    rw [if_neg h]

theorem mem_instrClear_of_ne (items : List Instrument) (iid : Int) (it : Instrument)
    (hm : it ∈ items) (h : ¬(it.id == iid) = true) : it ∈ instrClear items iid := by
  unfold instrClear
  rw [List.mem_map]
  exact ⟨it, hm, if_neg h⟩

theorem cleared_mem_instrClear (items : List Instrument) (iid : Int) (it : Instrument)
    (hm : it ∈ items) (h : (it.id == iid) = true) :
    { it with checkedOutTo := none, checkedOutDate := none } ∈ instrClear items iid := by
  unfold instrClear
  rw [List.mem_map]
  exact ⟨it, hm, if_pos h⟩

theorem instrClear_eq_self (items : List Instrument) (iid : Int)
    (h : ∀ it ∈ items, it.id = iid → (it.checkedOutTo = none ∧ it.checkedOutDate = none)) :
    instrClear items iid = items := by
  unfold instrClear
  apply map_eq_self_of_eq
  intro a ha
  by_cases hq : (a.id == iid) = true
  · obtain ⟨h1, h2⟩ := h a ha (by simpa using hq)
    rw [if_pos hq]
    cases a
    simp_all
  · rw [if_neg hq]

theorem returnInstrument_spec (db : DB) (iid : Int)
    (hsome : ∃ it ∈ db.instruments, it.checkedOutTo ≠ none ∧
      (typeFor db.instrumentTypes it.typeId).isSome = true)
    (hmem : ∃ it ∈ db.instruments, it.id = iid) :
    returnInstrument db iid =
      ({ db with instruments := instrClear db.instruments iid }, .returned) := by
  obtain ⟨a, ha, haco, haty⟩ := hsome
  obtain ⟨b, hb, hbid⟩ := hmem
  unfold returnInstrument
  rw [if_neg (show ¬((db.instruments.filter (fun it =>
      it.checkedOutTo != none && (typeFor db.instrumentTypes it.typeId).isSome)).isEmpty = true)
    from fun hc => (List.ne_nil_of_mem (List.mem_filter.mpr
      ⟨ha, by simp [haco, haty]⟩)) (List.isEmpty_iff.mp hc))]
  rw [if_neg (show ¬((db.instruments.countP (fun it => it.id == iid) == 0) = true) by
    have hpos : 0 < db.instruments.countP (fun it => it.id == iid) :=
      List.countP_pos_iff.mpr ⟨b, hb, by simpa using hbid⟩
    simpa using Nat.pos_iff_ne_zero.mp hpos)]

/-! Characterization of the uniform and shako operations -/

theorem checkoutUniform_cases (db : DB) (sid : Int)
    (cs ps cn pn notes : Option String) (today : String) :
    (checkoutUniform db sid cs ps cn pn notes today =
      ({ db with
          uniforms := db.uniforms ++
            [⟨db.nextUniformId, cs, ps, cn, pn, notes, some sid, some today⟩],
          nextUniformId := db.nextUniformId + 1 }, .success) ∧
      studentExistsB db sid = true ∧
      sid ∉ holdersOf (fun u : Uniform => u.checkedOutTo) db.uniforms)
    ∨ ((checkoutUniform db sid cs ps cn pn notes today).2 ≠ .success ∧
       (checkoutUniform db sid cs ps cn pn notes today).1 = db) := by
  unfold checkoutUniform
  split
  · right
    exact ⟨by simp, rfl⟩
  · rename_i h1
    split
    · right
      exact ⟨by simp, rfl⟩
    · rename_i h2
      left
      refine ⟨rfl, by simpa using h1, by simpa using h2⟩

theorem checkoutShako_cases (db : DB) (sid : Int) (size notes : Option String)
    (today : String) :
    (checkoutShako db sid size notes today =
      ({ db with
          shakos := db.shakos ++ [⟨db.nextShakoId, size, notes, some sid, some today⟩],
          nextShakoId := db.nextShakoId + 1 }, .success) ∧
      studentExistsB db sid = true ∧
      sid ∉ holdersOf (fun s : Shako => s.checkedOutTo) db.shakos)
    ∨ ((checkoutShako db sid size notes today).2 ≠ .success ∧
       (checkoutShako db sid size notes today).1 = db) := by
  unfold checkoutShako
  split
  · right
    exact ⟨by simp, rfl⟩
  · rename_i h1
    split
    · right
      exact ⟨by simp, rfl⟩
    · rename_i h2
      left
      refine ⟨rfl, by simpa using h1, by simpa using h2⟩

theorem holders_uniformClear_sublist (items : List Uniform) (uid : Int) :
    (holdersOf (fun u : Uniform => u.checkedOutTo) (uniformClear items uid)).Sublist
      (holdersOf (fun u : Uniform => u.checkedOutTo) items) := by
  unfold uniformClear holdersOf
  apply filterMap_map_sublist
  intro a _
  by_cases h : (a.id == uid) = true
  · right
    rw [if_pos h]
  · left
    rw [if_neg h]

theorem uniformClear_eq_self (items : List Uniform) (uid : Int)
    (h : ∀ u ∈ items, u.id = uid → (u.checkedOutTo = none ∧ u.checkedOutDate = none)) :
    uniformClear items uid = items := by
  unfold uniformClear
  apply map_eq_self_of_eq
  intro a ha
  by_cases hq : (a.id == uid) = true
  · obtain ⟨h1, h2⟩ := h a ha (by simpa using hq)
    rw [if_pos hq]
    cases a
    simp_all
  · rw [if_neg hq]

theorem returnUniform_spec (db : DB) (uid : Int)
    (hsome : ∃ u ∈ db.uniforms, u.checkedOutTo ≠ none)
    (hmem : ∃ u ∈ db.uniforms, u.id = uid) :
    returnUniform db uid =
      ({ db with uniforms := uniformClear db.uniforms uid }, .returned) := by
  obtain ⟨a, ha, haco⟩ := hsome
  obtain ⟨b, hb, hbid⟩ := hmem
  unfold returnUniform
  rw [if_neg (show ¬((db.uniforms.filter (fun u => u.checkedOutTo != none)).isEmpty = true)
    from fun hc => (List.ne_nil_of_mem (List.mem_filter.mpr ⟨ha, by simp [haco]⟩))
      (List.isEmpty_iff.mp hc))]
  rw [if_neg (show ¬((db.uniforms.countP (fun u => u.id == uid) == 0) = true) by
    have hpos : 0 < db.uniforms.countP (fun u => u.id == uid) :=
      List.countP_pos_iff.mpr ⟨b, hb, by simpa using hbid⟩
    simpa using Nat.pos_iff_ne_zero.mp hpos)]

theorem holders_shakoClear_sublist (items : List Shako) (hid : Int) :
    (holdersOf (fun s : Shako => s.checkedOutTo) (shakoClear items hid)).Sublist
      (holdersOf (fun s : Shako => s.checkedOutTo) items) := by
  unfold shakoClear holdersOf
  apply filterMap_map_sublist
  intro a _
  by_cases h : (a.id == hid) = true
  · right
    rw [if_pos h]
  · left
    rw [if_neg h]

theorem returnUniform_cases (db : DB) (uid : Int) :
    (returnUniform db uid).1 = db ∨
    (returnUniform db uid).1 = { db with uniforms := uniformClear db.uniforms uid } := by
  unfold returnUniform
  split
  · left
    rfl
  · split
    · left
      rfl
    · right
      rfl

theorem returnShako_cases (db : DB) (hid : Int) :
    (returnShako db hid).1 = db ∨
    (returnShako db hid).1 = { db with shakos := shakoClear db.shakos hid } := by
  unfold returnShako
  split
  · left
    rfl
  · split
    · left
      rfl
    · right
      rfl

theorem returnInstrument_cases (db : DB) (iid : Int) :
    (returnInstrument db iid).1 = db ∨
    (returnInstrument db iid).1 = { db with instruments := instrClear db.instruments iid } := by
  unfold returnInstrument
  split
  · left
    rfl
  · split
    · left
      rfl
    · right
      rfl

/-! Characterization of addStudent -/

theorem addStudent_cases (db : DB) (id : Int) (fn ln cls sec : String)
    (shirt shoe : Option String) (today : String) :
    ((addStudent db id fn ln cls sec shirt shoe today).2 = false ∧
     (addStudent db id fn ln cls sec shirt shoe today).1 = db) ∨
    ((addStudent db id fn ln cls sec shirt shoe today).2 = true ∧
     validSection sec = true ∧
     (∀ s ∈ db.students, s.id ≠ id) ∧
     ((db.compliance.any (fun c => c.studentId == id) = true ∧
       addStudent db id fn ln cls sec shirt shoe today =
         ({ db with students := db.students ++ [⟨id, fn, ln, cls, sec, shirt, shoe⟩] },
          true)) ∨
      (db.compliance.any (fun c => c.studentId == id) = false ∧
       addStudent db id fn ln cls sec shirt shoe today =
         ({ db with
             students := db.students ++ [⟨id, fn, ln, cls, sec, shirt, shoe⟩],
             compliance := db.compliance ++ [⟨id, 0, 0, 0, today⟩] }, true)))) := by
  unfold addStudent
  split
  · left
    exact ⟨rfl, rfl⟩
  · rename_i h1
    split
    · left
      exact ⟨rfl, rfl⟩
    · rename_i h2
      right
      refine ⟨?_, by simpa using h1, ?_, ?_⟩
      · split <;> rfl
      · intro s hs hid
        exact (by simpa using h2 : ¬ ∃ s ∈ db.students, s.id = id) ⟨s, hs, hid⟩
      · split
        · rename_i h3
          left
          exact ⟨h3, rfl⟩
        · rename_i h3
          right
          exact ⟨by simpa using h3, rfl⟩

/-! Characterization of addInstrumentToInventory -/

theorem addInstrumentToInventory_cases (db : DB) (tid : Int) (serial notes : Option String) :
    ((addInstrumentToInventory db tid serial notes).2 = false ∧
     (addInstrumentToInventory db tid serial notes).1 = db) ∨
    ((addInstrumentToInventory db tid serial notes).2 = true ∧
     (typeFor db.instrumentTypes tid).isSome = true ∧
     (addInstrumentToInventory db tid serial notes).1 =
       { db with
          instruments := db.instruments ++
            [⟨db.nextInstrumentId, tid, serial, notes, none, none⟩],
          nextInstrumentId := db.nextInstrumentId + 1 }) := by
  unfold addInstrumentToInventory
  cases hty : typeFor db.instrumentTypes tid with
  | none =>
    left
    rw [if_pos (by simp)]
    exact ⟨rfl, rfl⟩
  | some t =>
    rw [if_neg (by simp)]
    split
    · left
      exact ⟨rfl, rfl⟩
    · right
      exact ⟨rfl, by simp, rfl⟩

theorem addInstrumentToInventory_success_iff (db : DB) (tid : Int)
    (serial notes : Option String) :
    (addInstrumentToInventory db tid serial notes).2 = true ↔
      ((typeFor db.instrumentTypes tid).isSome = true ∧
       ∀ s, serial = some s → ∀ it ∈ db.instruments, it.serial ≠ some s) := by
  unfold addInstrumentToInventory
  cases hty : typeFor db.instrumentTypes tid with
  | none =>
    rw [if_pos (by simp)]
    simp
  | some t =>
    rw [if_neg (by simp)]
    cases serial with
    | none =>
      simp
    | some s =>
      split
      · rename_i hdup
        simp only [Bool.false_eq_true, false_iff]
        intro hc
        obtain ⟨it, hit, hser⟩ := List.any_eq_true.mp hdup
        exact hc.2 s rfl it hit (by simpa using hser)
      · rename_i hdup
        simp only [true_iff]
        refine ⟨by simp, ?_⟩
        intro x hx it hit hser
        apply (by simpa using hdup : ¬ ∃ it ∈ db.instruments, it.serial = some s)
        obtain rfl : s = x := by injection hx
        exact ⟨it, hit, hser⟩

/-! Characterization of updateStudentCompliance -/

theorem updateStudentCompliance_no_student (db : DB) (sid hours : Int) (gpa : Rat)
    (dues : Int) (today : String) (h : studentExistsB db sid = false) :
    updateStudentCompliance db sid hours gpa dues today = (db, false) := by
  unfold updateStudentCompliance
  rw [if_pos (by simp [h])]

theorem updateStudentCompliance_cases (db : DB) (sid hours : Int) (gpa : Rat)
    (dues : Int) (today : String)
    (hstu : studentExistsB db sid = true) (hh : 0 ≤ hours) (hd : dues = 0 ∨ dues = 1) :
    (updateStudentCompliance db sid hours gpa dues today).2 = true ∧
    ((db.compliance.any (fun c => c.studentId == sid) = true ∧
      (updateStudentCompliance db sid hours gpa dues today).1 =
        { db with compliance := db.compliance.map (fun c =>
            if c.studentId == sid
            then { c with creditHours := hours, gpa := gpa, duesPaid := dues, lastVerified := today }
            else c) }) ∨
     ((∀ c ∈ db.compliance, c.studentId ≠ sid) ∧
      (updateStudentCompliance db sid hours gpa dues today).1 =
        { db with compliance := db.compliance ++ [⟨sid, hours, gpa, dues, today⟩] })) := by
  unfold updateStudentCompliance
  rw [if_neg (by simp [hstu])]
  rw [if_neg (show ¬((hours < 0 || !(dues == 0 || dues == 1)) = true) by
    rcases hd with h | h <;> simp [h] <;> omega)]
  split
  · rename_i hany
    exact ⟨rfl, Or.inl ⟨hany, rfl⟩⟩
  · rename_i hany
    refine ⟨rfl, Or.inr ⟨?_, rfl⟩⟩
    intro c hc hcs
    exact (by simpa using hany : ¬ ∃ c ∈ db.compliance, c.studentId = sid) ⟨c, hc, hcs⟩

theorem complianceUpsert_countP (l : List Compliance) (sid hours : Int) (gpa : Rat)
    (dues : Int) (today : String) :
    (l.map (fun c =>
        if c.studentId == sid
        then { c with creditHours := hours, gpa := gpa, duesPaid := dues, lastVerified := today }
        else c)).countP (fun c => c.studentId == sid)
      = l.countP (fun c => c.studentId == sid) := by
  induction l with
  | nil => rfl
  | cons a t ih =>
    rw [List.map_cons]
    by_cases hq : (a.studentId == sid) = true
    · rw [if_pos hq,
        List.countP_cons_of_pos (fun c : Compliance => c.studentId == sid) _ (by simpa using hq),
        List.countP_cons_of_pos (fun c : Compliance => c.studentId == sid) _ hq, ih]
    · rw [if_neg hq,
        List.countP_cons_of_neg (fun c : Compliance => c.studentId == sid) _ hq,
        List.countP_cons_of_neg (fun c : Compliance => c.studentId == sid) _ hq, ih]

theorem complianceUpsert_mem (l : List Compliance) (sid hours : Int) (gpa : Rat)
    (dues : Int) (today : String) (a : Compliance) (ha : a ∈ l) (hq : a.studentId = sid) :
    (⟨sid, hours, gpa, dues, today⟩ : Compliance)
      ∈ l.map (fun c =>
          if c.studentId == sid
          then { c with creditHours := hours, gpa := gpa, duesPaid := dues, lastVerified := today }
          else c) := by
  rw [List.mem_map]
  refine ⟨a, ha, ?_⟩
  rw [if_pos (by simpa using hq)]
  cases a
  simp_all

theorem complianceUpsert_rows (l : List Compliance) (sid hours : Int) (gpa : Rat)
    (dues : Int) (today : String) (c : Compliance)
    (hc : c ∈ l.map (fun c =>
        if c.studentId == sid
        then { c with creditHours := hours, gpa := gpa, duesPaid := dues, lastVerified := today }
        else c))
    (hcs : c.studentId = sid) : c = ⟨sid, hours, gpa, dues, today⟩ := by
  rw [List.mem_map] at hc
  obtain ⟨a, ha, hac⟩ := hc
  by_cases hq : (a.studentId == sid) = true
  · rw [if_pos hq] at hac
    rw [← hac]
    have : a.studentId = sid := by simpa using hq
    cases a
    simp_all
  · rw [if_neg hq] at hac
    exact absurd (hac ▸ hcs) (by simpa using hq)

/-! Read-path lemmas -/

theorem mem_viewAllStudents_iff (db : DB) (r : StudentRow) :
    r ∈ viewAllStudents db ↔ ∃ s ∈ db.students, viewRowOf db s = r := by
  unfold viewAllStudents
  rw [(List.perm_insertionSort studentRowLe _).mem_iff, List.mem_map]

theorem mem_showEligibilityReport_iff (db : DB) (r : EligRow) :
    r ∈ showEligibilityReport db ↔ ∃ s ∈ db.students, eligRowOf db s = r := by
  unfold showEligibilityReport
  rw [(List.perm_insertionSort eligRowLe _).mem_iff, List.mem_map]

theorem findStudentByIdFn_some_iff (db : DB) (sid : Int) (p : StudentProfile) :
    findStudentByIdFn db sid = some p ↔
      ∃ s, db.students.find? (fun s => s.id == sid) = some s ∧ p = profileOf db s := by
  unfold findStudentByIdFn
  cases hf : db.students.find? (fun s => s.id == sid) with
  | none => simp
  | some s =>
    simp only [Option.map_some']
    constructor
    · intro h
      injection h with h
      exact ⟨s, rfl, h.symm⟩
    · rintro ⟨t, ht, hp⟩
      have hst : s = t := by injection ht
      rw [hp, hst]

theorem lookupCompliance_eq_none (db : DB) (sid : Int)
    (h : ∀ c ∈ db.compliance, c.studentId ≠ sid) : lookupCompliance db sid = none := by
  unfold lookupCompliance
  rw [List.find?_eq_none]
  intro c hc
  simpa using h c hc

theorem coalescedCompliance_of_none (db : DB) (sid : Int)
    (h : lookupCompliance db sid = none) : coalescedCompliance db sid = (0, 0, 0) := by
  unfold coalescedCompliance
  rw [h]

theorem find?_append_of_none {p : α → Bool} (l1 l2 : List α)
    (h : l1.find? p = none) : (l1 ++ l2).find? p = l2.find? p := by
  rw [List.find?_append, h, Option.none_or]

/-! Sortedness of the three assignments views -/

theorem viewInstrumentAssignments_sorted (db : DB) :
    List.Sorted (instrAssignLe db.instrumentTypes) (viewInstrumentAssignments db) := by
  haveI : IsTotal Instrument (instrAssignLe db.instrumentTypes) :=
    ⟨fun a b => le_total (instrAssignKey db.instrumentTypes a) (instrAssignKey db.instrumentTypes b)⟩
  haveI : IsTrans Instrument (instrAssignLe db.instrumentTypes) :=
    ⟨fun a b c h1 h2 => le_trans h1 h2⟩
  exact List.sorted_insertionSort _ _

theorem viewInstrumentAssignments_perm (db : DB) :
    (viewInstrumentAssignments db).Perm
      (db.instruments.filter (fun it => (typeFor db.instrumentTypes it.typeId).isSome)) :=
  List.perm_insertionSort _ _

theorem viewUniformAssignments_sorted (db : DB) :
    List.Sorted uniformAssignLe (viewUniformAssignments db) := by
  haveI : IsTotal Uniform uniformAssignLe :=
    ⟨fun a b => le_total (uniformAssignKey a) (uniformAssignKey b)⟩
  haveI : IsTrans Uniform uniformAssignLe :=
    ⟨fun a b c h1 h2 => le_trans h1 h2⟩
  exact List.sorted_insertionSort _ _

theorem viewUniformAssignments_perm (db : DB) :
    (viewUniformAssignments db).Perm db.uniforms :=
  List.perm_insertionSort _ _

theorem viewShakoAssignments_sorted (db : DB) :
    List.Sorted shakoAssignLe (viewShakoAssignments db) := by
  haveI : IsTotal Shako shakoAssignLe :=
    ⟨fun a b => le_total (shakoAssignKey a) (shakoAssignKey b)⟩
  haveI : IsTrans Shako shakoAssignLe :=
    ⟨fun a b c h1 h2 => le_trans h1 h2⟩
  exact List.sorted_insertionSort _ _

theorem viewShakoAssignments_perm (db : DB) :
    (viewShakoAssignments db).Perm db.shakos :=
  List.perm_insertionSort _ _

/-! Example databases for concrete witnesses and counterexamples -/

/-- A database with one student who has a compliance row. -/
def exDbC2 : DB :=
  ⟨[⟨7, "EVE", "FOX", "Junior", "DM", none, none⟩],
   [⟨7, 12, 3, 1, "2026-01-01"⟩], initDB.instrumentTypes, [], [], [], 1, 1, 1⟩

/-- A database with one student who has no compliance row. -/
def exDbC9 : DB :=
  ⟨[⟨8, "GUS", "HART", "Senior", "BRASS", none, none⟩],
   [], initDB.instrumentTypes, [], [], [], 1, 1, 1⟩

/-- A database with one student whose compliance row exists. -/
def exDbC10 : DB :=
  ⟨[⟨9, "IVY", "JONES", "Junior", "DM", none, none⟩],
   [⟨9, 3, 2, 0, "2026-01-01"⟩], initDB.instrumentTypes, [], [], [], 1, 1, 1⟩

/-! Claim C2 -/

/-- Claim C2: for the compliance facts of every student, the eligibility flag
computed by every read path (viewAllStudents, findStudentById,
showEligibilityReport) equals (creditHours >= 12) AND (gpa >= 3.0) AND
(duesPaid == 1); each read is a pure function of the database state, so no
read mutates any stored state, and the three report sub-predicates match
the three threshold tests. -/
theorem claim_C2_eligibility_formula (db : DB) :
    (∀ r ∈ viewAllStudents db, r.elig = specEligible r.creditHours r.gpa r.dues) ∧
    (∀ sid p, findStudentByIdFn db sid = some p →
       p.elig = specEligible p.creditHours p.gpa p.dues) ∧
    (∀ r ∈ showEligibilityReport db,
       r.elig = specEligible r.creditHours r.gpa r.dues ∧
       r.okHours = decide (12 ≤ r.creditHours) ∧
       r.okGpa = decide ((3 : Rat) ≤ r.gpa) ∧
       r.okDues = (r.dues == 1)) := by
  refine ⟨?_, ?_, ?_⟩
  · intro r hr
    obtain ⟨s, hs, rfl⟩ := (mem_viewAllStudents_iff db r).mp hr
    rfl
  · intro sid p hp
    obtain ⟨s, hs, rfl⟩ :
        ∃ s, db.students.find? (fun s => s.id == sid) = some s ∧ p = profileOf db s := by
      obtain ⟨s, hs, hp2⟩ := (findStudentByIdFn_some_iff db sid p).mp hp
      exact ⟨s, hs, hp2⟩
    rfl
  · intro r hr
    obtain ⟨s, hs, rfl⟩ := (mem_showEligibilityReport_iff db r).mp hr
    exact ⟨rfl, rfl, rfl, rfl⟩

/-- Witness for C2 at a concrete database and student. -/
theorem claim_C2_witness :
    (profileOf exDbC2 ⟨7, "EVE", "FOX", "Junior", "DM", none, none⟩).elig =
      specEligible
        (profileOf exDbC2 ⟨7, "EVE", "FOX", "Junior", "DM", none, none⟩).creditHours
        (profileOf exDbC2 ⟨7, "EVE", "FOX", "Junior", "DM", none, none⟩).gpa
        (profileOf exDbC2 ⟨7, "EVE", "FOX", "Junior", "DM", none, none⟩).dues :=
  (claim_C2_eligibility_formula exDbC2).2.1 7
    (profileOf exDbC2 ⟨7, "EVE", "FOX", "Junior", "DM", none, none⟩) (by decide)

/-! Claim C9 -/

/-- Claim C9: a student present in STUDENTS but with no COMPLIANCE row is
still shown by viewAllStudents, findStudentById and showEligibilityReport,
with COALESCE defaults 0 credit hours, 0.0 GPA, dues unpaid, eligibility
false (and an empty last-verified date in the profile). -/
theorem claim_C9_missing_compliance_defaults (db : DB) (s : Student)
    (hs : s ∈ db.students)
    (hnoc : ∀ c ∈ db.compliance, c.studentId ≠ s.id) :
    (∃ r ∈ viewAllStudents db, r.id = s.id ∧ r.creditHours = 0 ∧ r.gpa = 0 ∧
       r.dues = 0 ∧ r.elig = false) ∧
    (∃ p, findStudentByIdFn db s.id = some p ∧ p.creditHours = 0 ∧ p.gpa = 0 ∧
       p.dues = 0 ∧ p.elig = false ∧ p.lastVerified = "") ∧
    (∃ r ∈ showEligibilityReport db, r.id = s.id ∧ r.creditHours = 0 ∧ r.gpa = 0 ∧
       r.dues = 0 ∧ r.elig = false) := by
  have hlk : lookupCompliance db s.id = none := lookupCompliance_eq_none db s.id hnoc
  have hc0 : coalescedCompliance db s.id = (0, 0, 0) := coalescedCompliance_of_none db s.id hlk
  refine ⟨⟨viewRowOf db s, (mem_viewAllStudents_iff db _).mpr ⟨s, hs, rfl⟩, ?_⟩, ?_, ?_⟩
  · simp [viewRowOf, hc0]
  · have hfind : (db.students.find? (fun t => t.id == s.id)).isSome = true :=
      List.find?_isSome.mpr ⟨s, hs, by simp⟩
    obtain ⟨t, ht⟩ := Option.isSome_iff_exists.mp hfind
    have htid : t.id = s.id := by simpa using List.find?_some ht
    refine ⟨profileOf db t, ?_, ?_⟩
    · unfold findStudentByIdFn
      rw [ht]
      rfl
    · simp [profileOf, htid, hc0, hlk]
  · refine ⟨eligRowOf db s, (mem_showEligibilityReport_iff db _).mpr ⟨s, hs, rfl⟩, ?_⟩
    simp [eligRowOf, hc0]

/-- Witness for C9 at a concrete database and student. -/
theorem claim_C9_witness :
    ∃ p, findStudentByIdFn exDbC9 (8 : Int) = some p ∧ p.creditHours = 0 ∧ p.gpa = 0 ∧
      p.dues = 0 ∧ p.elig = false ∧ p.lastVerified = "" := by
  have h := claim_C9_missing_compliance_defaults exDbC9
    ⟨8, "GUS", "HART", "Senior", "BRASS", none, none⟩ (by decide) (by decide)
  exact h.2.1

/-! Claim C10 -/

/-- Claim C10: for every existing student, updateStudentCompliance succeeds
even when the COMPLIANCE row is missing (the upsert inserts it); after a
successful update the student has exactly one COMPLIANCE row, holding the
supplied credit hours, GPA and dues flag with last-verified = the current
date. -/
theorem claim_C10_upsert (db : DB) (sid hours : Int) (gpa : Rat) (dues : Int)
    (today : String)
    (hnodup : (db.compliance.map (fun c => c.studentId)).Nodup)
    (hstu : studentExistsB db sid = true)
    (hh : 0 ≤ hours) (hd : dues = 0 ∨ dues = 1) :
    (updateStudentCompliance db sid hours gpa dues today).2 = true ∧
    (⟨sid, hours, gpa, dues, today⟩ : Compliance)
        ∈ (updateStudentCompliance db sid hours gpa dues today).1.compliance ∧
    (updateStudentCompliance db sid hours gpa dues today).1.compliance.countP
        (fun c => c.studentId == sid) = 1 ∧
    (∀ c ∈ (updateStudentCompliance db sid hours gpa dues today).1.compliance,
       c.studentId = sid → c = ⟨sid, hours, gpa, dues, today⟩) := by
  obtain ⟨hsucc, hc⟩ := updateStudentCompliance_cases db sid hours gpa dues today hstu hh hd
  rcases hc with ⟨hany, heq⟩ | ⟨hnone, heq⟩
  · obtain ⟨a, ha, haid0⟩ := List.any_eq_true.mp hany
    have haid : a.studentId = sid := by simpa using haid0
    refine ⟨hsucc, ?_, ?_, ?_⟩
    · rw [heq]
      exact complianceUpsert_mem db.compliance sid hours gpa dues today a ha haid
    · rw [heq]
      dsimp only
      rw [complianceUpsert_countP]
      have hpos : 0 < db.compliance.countP (fun c => c.studentId == sid) :=
        List.countP_pos_iff.mpr ⟨a, ha, by simpa using haid⟩
      have hle : db.compliance.countP (fun c => c.studentId == sid) ≤ 1 :=
        countP_key_le_one db.compliance (fun c => c.studentId) sid hnodup
      omega
    · intro c hc hcs
      rw [heq] at hc
      exact complianceUpsert_rows db.compliance sid hours gpa dues today c hc hcs
  · refine ⟨hsucc, ?_, ?_, ?_⟩
    · rw [heq]
      exact List.mem_append.mpr (Or.inr (by simp))
    · rw [heq]
      dsimp only
      rw [List.countP_append]
      have h0 : db.compliance.countP (fun c => c.studentId == sid) = 0 :=
        List.countP_eq_zero.mpr (fun c hcm => by simpa using hnone c hcm)
      simp [h0]
    · intro c hc hcs
      rw [heq] at hc
      rcases List.mem_append.mp hc with hcl | hcr
      · exact absurd hcs (hnone c hcl)
      · simpa using hcr

/-- Witness for C10 at a concrete database: the student exists and its row
is replaced by the supplied values. -/
theorem claim_C10_witness :
    (updateStudentCompliance exDbC10 9 15 4 1 "2026-02-02").2 = true ∧
    (⟨9, 15, 4, 1, "2026-02-02"⟩ : Compliance)
        ∈ (updateStudentCompliance exDbC10 9 15 4 1 "2026-02-02").1.compliance ∧
    (updateStudentCompliance exDbC10 9 15 4 1 "2026-02-02").1.compliance.countP
        (fun c => c.studentId == 9) = 1 ∧
    (∀ c ∈ (updateStudentCompliance exDbC10 9 15 4 1 "2026-02-02").1.compliance,
       c.studentId = 9 → c = ⟨9, 15, 4, 1, "2026-02-02"⟩) :=
  claim_C10_upsert exDbC10 9 15 4 1 "2026-02-02" (by decide) (by decide) (by decide)
    (Or.inr rfl)

/-! Claim C4 -/

/-- Claim C4: addStudent either creates both the STUDENTS row and its
zero-default COMPLIANCE row (with last-verified = creation date), or
creates neither (the failed INSERT leaves the state unchanged); immediately
after every successful creation the derived eligibility of the new student is
false.  The hypothesis is the COMPLIANCE → STUDENTS foreign key, which
every reachable state satisfies. -/
theorem claim_C4_atomic_creation (db : DB) (id : Int) (fn ln cls sec : String)
    (shirt shoe : Option String) (today : String)
    (hFK : ∀ c ∈ db.compliance, ∃ s ∈ db.students, s.id = c.studentId) :
    ((addStudent db id fn ln cls sec shirt shoe today).2 = false →
       (addStudent db id fn ln cls sec shirt shoe today).1 = db) ∧
    ((addStudent db id fn ln cls sec shirt shoe today).2 = true →
       (⟨id, fn, ln, cls, sec, shirt, shoe⟩ : Student)
           ∈ (addStudent db id fn ln cls sec shirt shoe today).1.students ∧
       (⟨id, 0, 0, 0, today⟩ : Compliance)
           ∈ (addStudent db id fn ln cls sec shirt shoe today).1.compliance ∧
       (∀ p, findStudentByIdFn (addStudent db id fn ln cls sec shirt shoe today).1 id
           = some p → p.elig = false)) := by
  rcases addStudent_cases db id fn ln cls sec shirt shoe today with
    ⟨hfail, hstate⟩ | ⟨hsucc, hvalid, hfresh, hsub⟩
  · constructor
    · intro _
      exact hstate
    · intro htrue
      rw [htrue] at hfail
      cases hfail
  · have hnoc : ∀ c ∈ db.compliance, c.studentId ≠ id := by
      intro c hc hcs
      obtain ⟨s, hsm, hsid⟩ := hFK c hc
      exact hfresh s hsm (hsid.trans hcs)
    rcases hsub with ⟨hany, _⟩ | ⟨_, heq⟩
    · obtain ⟨c, hc, hcs⟩ := List.any_eq_true.mp hany
      exact absurd (by simpa using hcs) (hnoc c hc)
    · constructor
      · intro hfalse
        rw [heq] at hfalse
        cases hfalse
      · intro _
        rw [heq]
        refine ⟨List.mem_append.mpr (Or.inr (by simp)),
          List.mem_append.mpr (Or.inr (by simp)), ?_⟩
        intro p hp
        dsimp only at hp
        obtain ⟨t, ht, hpt⟩ := (findStudentByIdFn_some_iff _ id p).mp hp
        have hfold : db.students.find? (fun s => s.id == id) = none :=
          List.find?_eq_none.mpr (fun s hs => by simpa using hfresh s hs)
        rw [show (({ db with
              students := db.students ++ [⟨id, fn, ln, cls, sec, shirt, shoe⟩],
              compliance := db.compliance ++ [⟨id, 0, 0, 0, today⟩] } : DB)).students
            = db.students ++ [⟨id, fn, ln, cls, sec, shirt, shoe⟩] from rfl,
          find?_append_of_none _ _ hfold] at ht
        have ht2 : t = (⟨id, fn, ln, cls, sec, shirt, shoe⟩ : Student) := by
          have := ht
          simp only [List.find?] at this
          split at this
          · injection this with h2
            exact h2.symm
          · cases this
        subst ht2
        have hlk : lookupCompliance
            ({ db with
               students := db.students ++ [⟨id, fn, ln, cls, sec, shirt, shoe⟩],
               compliance := db.compliance ++ [⟨id, 0, 0, 0, today⟩] } : DB) id
            = some ⟨id, 0, 0, 0, today⟩ := by
          unfold lookupCompliance
          rw [show (({ db with
                students := db.students ++ [⟨id, fn, ln, cls, sec, shirt, shoe⟩],
                compliance := db.compliance ++ [⟨id, 0, 0, 0, today⟩] } : DB)).compliance
              = db.compliance ++ [⟨id, 0, 0, 0, today⟩] from rfl,
            find?_append_of_none _ _
              (List.find?_eq_none.mpr (fun c hc => by simpa using hnoc c hc))]
          simp [List.find?]
        rw [hpt]
        unfold profileOf coalescedCompliance
        rw [show ((⟨id, fn, ln, cls, sec, shirt, shoe⟩ : Student)).id = id from rfl, hlk]
        simp

/-- A database for the C4 witness: student 5 does not exist yet. -/
def exDbC4 : DB :=
  ⟨[⟨1, "ANA", "BELL", "Freshman", "BRASS", none, none⟩],
   [⟨1, 12, 3, 1, "2026-01-01"⟩], initDB.instrumentTypes, [], [], [], 1, 1, 1⟩

/-- Witness for C4: creating student 5 creates both rows and the new
student is ineligible. -/
theorem claim_C4_witness :
    (⟨5, "KIM", "LEE", "Senior", "DM", none, none⟩ : Student)
        ∈ (addStudent exDbC4 5 "KIM" "LEE" "Senior" "DM" none none "2026-02-02").1.students ∧
    (⟨5, 0, 0, 0, "2026-02-02"⟩ : Compliance)
        ∈ (addStudent exDbC4 5 "KIM" "LEE" "Senior" "DM" none none "2026-02-02").1.compliance ∧
    (∀ p, findStudentByIdFn
        (addStudent exDbC4 5 "KIM" "LEE" "Senior" "DM" none none "2026-02-02").1 5
        = some p → p.elig = false) :=
  (claim_C4_atomic_creation exDbC4 5 "KIM" "LEE" "Senior" "DM" none none "2026-02-02"
    (by decide)).2 (by decide)

/-! Preservation of the single-holder invariant -/

theorem HoldersOk_mono (ss ss2 : List Student) (hl : List Int)
    (h : HoldersOk ss hl) (hsub : ∀ s ∈ ss, s ∈ ss2) : HoldersOk ss2 hl := by
  refine ⟨?_, h.2⟩
  intro x hx
  obtain ⟨s, hsm, hsid⟩ := h.1 x hx
  exact ⟨s, hsub s hsm, hsid⟩

theorem HoldersOk_sublist (ss : List Student) (hl hl2 : List Int)
    (h : HoldersOk ss hl) (hsub : hl2.Sublist hl) : HoldersOk ss hl2 :=
  ⟨fun x hx => h.1 x (hsub.subset hx), hsub.nodup h.2⟩

theorem HoldersOk_append_one (ss : List Student) (hl : List Int) (sid : Int)
    (h : HoldersOk ss hl) (hmem : ∃ s ∈ ss, s.id = sid) (hni : sid ∉ hl) :
    HoldersOk ss (hl ++ [sid]) := by
  constructor
  · intro x hx
    rcases List.mem_append.mp hx with hx | hx
    · exact h.1 x hx
    · obtain rfl : x = sid := by simpa using hx
      exact hmem
  · rw [List.nodup_append]
    refine ⟨h.2, List.nodup_singleton sid, ?_⟩
    intro a ha hb
    obtain rfl : a = sid := by simpa using hb
    exact hni ha

theorem inv_addStudent (db : DB) (id : Int) (fn ln cls sec : String)
    (shirt shoe : Option String) (today : String) (hInv : SingleHolderInv db) :
    SingleHolderInv (addStudent db id fn ln cls sec shirt shoe today).1 := by
  rcases addStudent_cases db id fn ln cls sec shirt shoe today with
    ⟨_, hstate⟩ | ⟨_, _, _, hsub⟩
  · rwa [hstate]
  · rcases hsub with ⟨_, heq⟩ | ⟨_, heq⟩ <;>
      rw [heq] <;>
      exact ⟨HoldersOk_mono _ _ _ hInv.1 (fun s hs => List.mem_append.mpr (Or.inl hs)),
        HoldersOk_mono _ _ _ hInv.2.1 (fun s hs => List.mem_append.mpr (Or.inl hs)),
        HoldersOk_mono _ _ _ hInv.2.2 (fun s hs => List.mem_append.mpr (Or.inl hs))⟩

theorem inv_addInstrumentToInventory (db : DB) (tid : Int) (serial notes : Option String)
    (hInv : SingleHolderInv db) :
    SingleHolderInv (addInstrumentToInventory db tid serial notes).1 := by
  rcases addInstrumentToInventory_cases db tid serial notes with ⟨_, hstate⟩ | ⟨_, _, heq⟩
  · rwa [hstate]
  · rw [heq]
    refine ⟨?_, hInv.2.1, hInv.2.2⟩
    have : holdersOf (fun it : Instrument => it.checkedOutTo)
        (db.instruments ++ [⟨db.nextInstrumentId, tid, serial, notes, none, none⟩])
        = holdersOf (fun it : Instrument => it.checkedOutTo) db.instruments := by
      unfold holdersOf
      rw [List.filterMap_append]
      simp
    rw [show ({ db with
          instruments := db.instruments ++
            [⟨db.nextInstrumentId, tid, serial, notes, none, none⟩],
          nextInstrumentId := db.nextInstrumentId + 1 } : DB).instruments
        = db.instruments ++ [⟨db.nextInstrumentId, tid, serial, notes, none, none⟩]
      from rfl, this]
    exact hInv.1

theorem inv_checkoutInstrument (db : DB) (sid : Int) (fb : Bool) (iid : Int)
    (today : String) (hInv : SingleHolderInv db) :
    SingleHolderInv (checkoutInstrument db sid fb iid today).1 := by
  by_cases hs : (checkoutInstrument db sid fb iid today).2 = .success
  · rw [checkoutInstrument_success_state db sid fb iid today hs]
    refine ⟨⟨?_, checkoutInstrument_success_nodup_holders db sid fb iid today hs⟩,
      hInv.2.1, hInv.2.2⟩
    intro x hx
    rcases mem_holders_checkoutUpdate db.instruments iid sid x today hx with heq | hx2
    · rw [heq]
      exact (studentExistsB_iff db sid).mp
        (checkoutInstrument_success_student db sid fb iid today hs)
    · exact hInv.1.1 x hx2
  · rwa [checkoutInstrument_not_success_state db sid fb iid today hs]

theorem inv_checkoutUniform (db : DB) (sid : Int)
    (cs ps cn pn notes : Option String) (today : String) (hInv : SingleHolderInv db) :
    SingleHolderInv (checkoutUniform db sid cs ps cn pn notes today).1 := by
  rcases checkoutUniform_cases db sid cs ps cn pn notes today with
    ⟨heq, hstu, hni⟩ | ⟨_, hstate⟩
  · rw [heq]
    refine ⟨hInv.1, ?_, hInv.2.2⟩
    have hh : holdersOf (fun u : Uniform => u.checkedOutTo)
        (db.uniforms ++ [⟨db.nextUniformId, cs, ps, cn, pn, notes, some sid, some today⟩])
        = holdersOf (fun u : Uniform => u.checkedOutTo) db.uniforms ++ [sid] := by
      unfold holdersOf
      rw [List.filterMap_append]
      rfl
    rw [show ({ db with
          uniforms := db.uniforms ++
            [⟨db.nextUniformId, cs, ps, cn, pn, notes, some sid, some today⟩],
          nextUniformId := db.nextUniformId + 1 } : DB).uniforms
        = db.uniforms ++ [⟨db.nextUniformId, cs, ps, cn, pn, notes, some sid, some today⟩]
      from rfl, hh]
    exact HoldersOk_append_one _ _ _ hInv.2.1 ((studentExistsB_iff db sid).mp hstu) hni
  · rwa [hstate]

theorem inv_checkoutShako (db : DB) (sid : Int) (size notes : Option String)
    (today : String) (hInv : SingleHolderInv db) :
    SingleHolderInv (checkoutShako db sid size notes today).1 := by
  rcases checkoutShako_cases db sid size notes today with ⟨heq, hstu, hni⟩ | ⟨_, hstate⟩
  · rw [heq]
    refine ⟨hInv.1, hInv.2.1, ?_⟩
    have hh : holdersOf (fun s : Shako => s.checkedOutTo)
        (db.shakos ++ [⟨db.nextShakoId, size, notes, some sid, some today⟩])
        = holdersOf (fun s : Shako => s.checkedOutTo) db.shakos ++ [sid] := by
      unfold holdersOf
      rw [List.filterMap_append]
      rfl
    rw [show ({ db with
          shakos := db.shakos ++ [⟨db.nextShakoId, size, notes, some sid, some today⟩],
          nextShakoId := db.nextShakoId + 1 } : DB).shakos
        = db.shakos ++ [⟨db.nextShakoId, size, notes, some sid, some today⟩]
      from rfl, hh]
    exact HoldersOk_append_one _ _ _ hInv.2.2 ((studentExistsB_iff db sid).mp hstu) hni
  · rwa [hstate]

theorem inv_returnInstrument (db : DB) (iid : Int) (hInv : SingleHolderInv db) :
    SingleHolderInv (returnInstrument db iid).1 := by
  rcases returnInstrument_cases db iid with hstate | hstate
  · rwa [hstate]
  · rw [hstate]
    exact ⟨HoldersOk_sublist _ _ _ hInv.1 (holders_instrClear_sublist db.instruments iid),
      hInv.2.1, hInv.2.2⟩

theorem inv_returnUniform (db : DB) (uid : Int) (hInv : SingleHolderInv db) :
    SingleHolderInv (returnUniform db uid).1 := by
  rcases returnUniform_cases db uid with hstate | hstate
  · rwa [hstate]
  · rw [hstate]
    exact ⟨hInv.1,
      HoldersOk_sublist _ _ _ hInv.2.1 (holders_uniformClear_sublist db.uniforms uid),
      hInv.2.2⟩

theorem inv_returnShako (db : DB) (hid : Int) (hInv : SingleHolderInv db) :
    SingleHolderInv (returnShako db hid).1 := by
  rcases returnShako_cases db hid with hstate | hstate
  · rwa [hstate]
  · rw [hstate]
    exact ⟨hInv.1, hInv.2.1,
      HoldersOk_sublist _ _ _ hInv.2.2 (holders_shakoClear_sublist db.shakos hid)⟩

/-! Claim C1 -/

/-- Claim C1: in every reachable state, a non-empty CHECKED_OUT_TO value of
any resource kind references an existing student, and no student id
appears in CHECKED_OUT_TO of two distinct items of the same kind: the
initial state satisfies this invariant, and each core operation
(createStudent, addItem, the three checkouts, the three returns)
preserves it. -/
theorem claim_C1_single_holder_invariant (db : DB) (hInv : SingleHolderInv db)
    (sid iid uid hid tid newId : Int) (fn ln cls sec today : String)
    (shirt shoe serial notes cs ps cn pn size : Option String) (fb : Bool) :
    SingleHolderInv initDB ∧
    SingleHolderInv (addStudent db newId fn ln cls sec shirt shoe today).1 ∧
    SingleHolderInv (addInstrumentToInventory db tid serial notes).1 ∧
    SingleHolderInv (checkoutInstrument db sid fb iid today).1 ∧
    SingleHolderInv (checkoutUniform db sid cs ps cn pn notes today).1 ∧
    SingleHolderInv (checkoutShako db sid size notes today).1 ∧
    SingleHolderInv (returnInstrument db iid).1 ∧
    SingleHolderInv (returnUniform db uid).1 ∧
    SingleHolderInv (returnShako db hid).1 :=
  ⟨by decide,
   inv_addStudent db newId fn ln cls sec shirt shoe today hInv,
   inv_addInstrumentToInventory db tid serial notes hInv,
   inv_checkoutInstrument db sid fb iid today hInv,
   inv_checkoutUniform db sid cs ps cn pn notes today hInv,
   inv_checkoutShako db sid size notes today hInv,
   inv_returnInstrument db iid hInv,
   inv_returnUniform db uid hInv,
   inv_returnShako db hid hInv⟩

/-- A database with students 1 and 2, where student 1 holds instrument 1,
uniform 1 and shako 1, and item 2 of each kind is available. -/
def exDbC1 : DB :=
  ⟨[⟨1, "ANA", "BELL", "Freshman", "BRASS", none, none⟩,
    ⟨2, "CARL", "DEAN", "Senior", "WOODWIND", none, none⟩],
   [⟨1, 12, 3, 1, "2026-01-01"⟩], initDB.instrumentTypes,
   [⟨1, 4, some "S1", none, some 1, some "2026-01-01"⟩, ⟨2, 4, none, none, none, none⟩],
   [⟨1, none, none, none, none, none, some 1, some "2026-01-01"⟩,
    ⟨2, none, none, none, none, none, none, none⟩],
   [⟨1, none, none, some 1, some "2026-01-01"⟩, ⟨2, none, none, none, none⟩],
   3, 3, 3⟩

/-- Witness for C1 at a concrete invariant-satisfying database and a
concrete call of each operation. -/
theorem claim_C1_witness :
    SingleHolderInv initDB ∧
    SingleHolderInv (addStudent exDbC1 3 "EVE" "FOX" "Junior" "DM" none none "2026-02-02").1 ∧
    SingleHolderInv (addInstrumentToInventory exDbC1 4 none none).1 ∧
    SingleHolderInv (checkoutInstrument exDbC1 2 false 2 "2026-02-02").1 ∧
    SingleHolderInv (checkoutUniform exDbC1 2 none none none none none "2026-02-02").1 ∧
    SingleHolderInv (checkoutShako exDbC1 2 none none "2026-02-02").1 ∧
    SingleHolderInv (returnInstrument exDbC1 2).1 ∧
    SingleHolderInv (returnUniform exDbC1 1).1 ∧
    SingleHolderInv (returnShako exDbC1 1).1 :=
  claim_C1_single_holder_invariant exDbC1 (by decide) 2 2 1 1 4 3 "EVE" "FOX" "Junior" "DM"
    "2026-02-02" none none none none none none none none none false

/-! Claim C3 -/

theorem holds_iff_mem_holders (items : List Instrument) (sid : Int) :
    (∃ it ∈ items, it.checkedOutTo = some sid) ↔
      sid ∈ holdersOf (fun it : Instrument => it.checkedOutTo) items := by
  unfold holdersOf
  rw [List.mem_filterMap]

/-- A database where student 1 already holds instrument 1, instrument 2 is
available, and student 2 holds nothing. -/
def exDbC3 : DB :=
  ⟨[⟨1, "ANA", "BELL", "Freshman", "BRASS", none, none⟩,
    ⟨2, "CARL", "DEAN", "Senior", "WOODWIND", none, none⟩],
   [], initDB.instrumentTypes,
   [⟨1, 4, none, none, some 1, some "2026-01-01"⟩, ⟨2, 4, none, none, none, none⟩],
   [], [], 3, 1, 1⟩

/-- Counterexample to C3 as stated: student 1 exists, instrument 2 exists
and is AVAILABLE, yet the checkout fails (student 1 already holds
instrument 1, so the UNIQUE index on CHECKED_OUT_TO rejects the UPDATE)
and no state changes. -/
theorem claim_C3_counterexample :
    studentExistsB exDbC3 1 = true ∧
    (∃ it ∈ exDbC3.instruments, it.id = 2 ∧ it.checkedOutTo = none) ∧
    (checkoutInstrument exDbC3 1 false 2 "2026-02-02").2 ≠ CheckoutResult.success ∧
    (checkoutInstrument exDbC3 1 false 2 "2026-02-02").1 = exDbC3 := by decide

/-- Claim C3 amended: on the unfiltered path, checkoutInstrument succeeds
exactly when the student exists, the item exists and is AVAILABLE, and the
student does not already hold an instrument; on success the one item is
bound to the student with the current date and every other item is
unchanged; on failure no item changes. -/
theorem claim_C3_checkout_conditions (db : DB) (sid iid : Int) (today : String)
    (hids : (db.instruments.map (fun it => it.id)).Nodup)
    (hhold : (holdersOf (fun it : Instrument => it.checkedOutTo) db.instruments).Nodup)
    (htypes : ∀ it ∈ db.instruments, (typeFor db.instrumentTypes it.typeId).isSome = true) :
    ((checkoutInstrument db sid false iid today).2 = .success ↔
      (studentExistsB db sid = true ∧
       (∃ it ∈ db.instruments, it.id = iid ∧ it.checkedOutTo = none) ∧
       ¬ ∃ it ∈ db.instruments, it.checkedOutTo = some sid)) ∧
    ((checkoutInstrument db sid false iid today).2 = .success →
      ((checkoutInstrument db sid false iid today).1.instruments.length =
         db.instruments.length ∧
       (∀ it ∈ db.instruments, it.id ≠ iid →
          it ∈ (checkoutInstrument db sid false iid today).1.instruments) ∧
       (∀ it ∈ db.instruments, it.id = iid →
          { it with checkedOutTo := some sid, checkedOutDate := some today }
            ∈ (checkoutInstrument db sid false iid today).1.instruments))) ∧
    ((checkoutInstrument db sid false iid today).2 ≠ .success →
      (checkoutInstrument db sid false iid today).1 = db) := by
  refine ⟨⟨?_, ?_⟩, ?_, checkoutInstrument_not_success_state db sid false iid today⟩
  · intro hs
    refine ⟨checkoutInstrument_success_student db sid false iid today hs,
      checkoutInstrument_success_matched db sid false iid today hs, ?_⟩
    rw [holds_iff_mem_holders]
    exact checkoutInstrument_success_not_holding db sid false iid today hids hhold hs
  · rintro ⟨hstu, hitem, hni⟩
    rw [holds_iff_mem_holders] at hni
    exact checkoutInstrument_success_of db sid iid today hids hhold hstu hitem
      (fun it hm _ => htypes it hm) hni
  · intro hs
    rw [checkoutInstrument_success_state db sid false iid today hs]
    dsimp only
    refine ⟨instrCheckoutUpdate_length db.instruments iid sid today, ?_, ?_⟩
    · intro it hm hne
      exact mem_instrCheckoutUpdate_of_not_match db.instruments iid sid today it hm
        (by simp [hne])
    · intro it hm hid
      obtain ⟨it2, hm2, hid2, hco2⟩ :=
        checkoutInstrument_success_matched db sid false iid today hs
      have : it = it2 :=
        List.inj_on_of_nodup_map hids hm hm2 (by rw [hid, hid2])
      subst this
      exact updated_mem_instrCheckoutUpdate db.instruments iid sid today it hm
        (by simp [hid, hco2])

/-- Witness for the amended C3: a successful concrete checkout. -/
theorem claim_C3_witness :
    (checkoutInstrument exDbC3 2 false 2 "2026-02-02").2 = CheckoutResult.success :=
  ((claim_C3_checkout_conditions exDbC3 2 2 "2026-02-02" (by decide) (by decide)
    (by decide)).1).mpr (by decide)

/-! Claim C6 -/

/-- A database where instrument 1 and uniform 1 are checked out to
student 1, while instrument 2 and uniform 2 are AVAILABLE. -/
def exDbC6 : DB :=
  ⟨[⟨1, "ANA", "BELL", "Freshman", "BRASS", none, none⟩],
   [], initDB.instrumentTypes,
   [⟨1, 4, none, none, some 1, some "2026-01-01"⟩, ⟨2, 4, none, none, none, none⟩],
   [⟨1, none, none, none, none, none, some 1, some "2026-01-01"⟩,
    ⟨2, none, none, none, none, none, none, none⟩],
   [], 3, 3, 1⟩

/-- Counterexample to C6 as stated: returning the existing but AVAILABLE
instrument 2 reports the success outcome ("Instrument returned."), which
is the same outcome as a genuine return — the program has no NotCheckedOut
error at all (its only outcomes are the three listed constructors).  The
state is indeed unchanged. -/
theorem claim_C6_counterexample :
    ((⟨2, 4, none, none, none, none⟩ : Instrument) ∈ exDbC6.instruments) ∧
    returnInstrument exDbC6 2 = (exDbC6, ReturnResult.returned) ∧
    ReturnResult.returned ≠ ReturnResult.noneCheckedOut ∧
    ReturnResult.returned ≠ ReturnResult.noSuchItem := by decide

/-- Claim C6 amended: returning an existing AVAILABLE item (while at least
one item of the kind is checked out, so the prompt is reached) changes no
state — the item keeps its empty checkout binding — but the operation
reports the same "returned" outcome as a successful return, not a
NotCheckedOut error. -/
theorem claim_C6_return_available_noop (db : DB) (iid uid : Int)
    (hi1 : ∃ it ∈ db.instruments, it.checkedOutTo ≠ none ∧
      (typeFor db.instrumentTypes it.typeId).isSome = true)
    (hi2 : ∃ it ∈ db.instruments, it.id = iid ∧ it.checkedOutTo = none ∧
      it.checkedOutDate = none)
    (hi3 : (db.instruments.map (fun it => it.id)).Nodup)
    (hu1 : ∃ u ∈ db.uniforms, u.checkedOutTo ≠ none)
    (hu2 : ∃ u ∈ db.uniforms, u.id = uid ∧ u.checkedOutTo = none ∧
      u.checkedOutDate = none)
    (hu3 : (db.uniforms.map (fun u => u.id)).Nodup) :
    returnInstrument db iid = (db, .returned) ∧
    returnUniform db uid = (db, .returned) := by
  constructor
  · obtain ⟨it0, hm0, hid0, hco0, hcd0⟩ := hi2
    rw [returnInstrument_spec db iid hi1 ⟨it0, hm0, hid0⟩]
    rw [instrClear_eq_self db.instruments iid (fun it hm hid => by
      have : it = it0 := List.inj_on_of_nodup_map hi3 hm hm0 (by rw [hid, hid0])
      subst this
      exact ⟨hco0, hcd0⟩)]
  · obtain ⟨u0, hm0, hid0, hco0, hcd0⟩ := hu2
    rw [returnUniform_spec db uid hu1 ⟨u0, hm0, hid0⟩]
    rw [uniformClear_eq_self db.uniforms uid (fun u hm hid => by
      have : u = u0 := List.inj_on_of_nodup_map hu3 hm hm0 (by rw [hid, hid0])
      subst this
      exact ⟨hco0, hcd0⟩)]

/-- Witness for the amended C6 at the concrete database. -/
theorem claim_C6_witness :
    returnInstrument exDbC6 2 = (exDbC6, ReturnResult.returned) ∧
    returnUniform exDbC6 2 = (exDbC6, ReturnResult.returned) :=
  claim_C6_return_available_noop exDbC6 2 2 (by decide) (by decide) (by decide)
    (by decide) (by decide) (by decide)

/-! Claim C7 -/

/-- A database with an instrument whose serial is "S1". -/
def exDbC7 : DB :=
  ⟨[], [], initDB.instrumentTypes,
   [⟨1, 4, some "S1", none, none, none⟩], [], [], 2, 1, 1⟩

/-- Counterexample to C7 as stated: INSTRUMENTS.SERIAL is a UNIQUE column,
so adding a second instrument with the serial already in inventory fails
and allocates nothing, although the type id is valid. -/
theorem claim_C7_counterexample :
    (typeFor exDbC7.instrumentTypes 4).isSome = true ∧
    (∃ it ∈ exDbC7.instruments, it.serial = some "S1") ∧
    addInstrumentToInventory exDbC7 4 (some "S1") none = (exDbC7, false) := by decide

/-- Claim C7 amended: addItem (addInstrumentToInventory) succeeds exactly
when the chosen type exists and the serial is empty or not already in
inventory; on success it appends a fresh AVAILABLE item whose id is the
AUTOINCREMENT counter, strictly greater than every existing id of the
kind, and the counter strictly increases so the id is never reused; on
failure the state is unchanged, and in all cases every item id stays below
the (non-decreasing) counter. -/
theorem claim_C7_fresh_ids (db : DB) (tid : Int) (serial notes : Option String)
    (hidlt : ∀ it ∈ db.instruments, it.id < db.nextInstrumentId) :
    ((addInstrumentToInventory db tid serial notes).2 = true ↔
      ((typeFor db.instrumentTypes tid).isSome = true ∧
       ∀ s, serial = some s → ∀ it ∈ db.instruments, it.serial ≠ some s)) ∧
    ((addInstrumentToInventory db tid serial notes).2 = true →
      ∃ newIt : Instrument,
        (addInstrumentToInventory db tid serial notes).1.instruments =
          db.instruments ++ [newIt] ∧
        newIt.id = db.nextInstrumentId ∧
        newIt.checkedOutTo = none ∧
        (∀ it ∈ db.instruments, it.id < newIt.id) ∧
        (addInstrumentToInventory db tid serial notes).1.nextInstrumentId = newIt.id + 1) ∧
    ((addInstrumentToInventory db tid serial notes).2 = false →
      (addInstrumentToInventory db tid serial notes).1 = db) ∧
    (∀ it ∈ (addInstrumentToInventory db tid serial notes).1.instruments,
       it.id < (addInstrumentToInventory db tid serial notes).1.nextInstrumentId) ∧
    db.nextInstrumentId ≤ (addInstrumentToInventory db tid serial notes).1.nextInstrumentId := by
  refine ⟨addInstrumentToInventory_success_iff db tid serial notes, ?_, ?_, ?_, ?_⟩
  · intro hs
    rcases addInstrumentToInventory_cases db tid serial notes with ⟨hf, _⟩ | ⟨_, _, heq⟩
    · rw [hs] at hf
      cases hf
    · refine ⟨⟨db.nextInstrumentId, tid, serial, notes, none, none⟩, ?_, rfl, rfl, ?_, ?_⟩
      · rw [heq]
      · intro it hm
        exact hidlt it hm
      · rw [heq]
  · intro hf
    rcases addInstrumentToInventory_cases db tid serial notes with ⟨_, hstate⟩ | ⟨hs, _, _⟩
    · exact hstate
    · rw [hf] at hs
      cases hs
  · intro it hm
    rcases addInstrumentToInventory_cases db tid serial notes with ⟨_, hstate⟩ | ⟨_, _, heq⟩
    · rw [hstate] at hm ⊢
      exact hidlt it hm
    · rw [heq] at hm ⊢
      dsimp only at hm ⊢
      rcases List.mem_append.mp hm with hml | hmr
      · have := hidlt it hml
        omega
      · have : it = (⟨db.nextInstrumentId, tid, serial, notes, none, none⟩ : Instrument) := by
          simpa using hmr
        rw [this]
        dsimp only
        omega
  · rcases addInstrumentToInventory_cases db tid serial notes with ⟨_, hstate⟩ | ⟨_, _, heq⟩
    · rw [hstate]
    · rw [heq]
      dsimp only
      omega

/-- Witness for the amended C7 at a concrete database: a fresh serial
succeeds with the fresh id 2. -/
theorem claim_C7_witness :
    ∃ newIt : Instrument,
      (addInstrumentToInventory exDbC7 4 (some "S2") none).1.instruments =
        exDbC7.instruments ++ [newIt] ∧
      newIt.id = exDbC7.nextInstrumentId ∧
      newIt.checkedOutTo = none ∧
      (∀ it ∈ exDbC7.instruments, it.id < newIt.id) ∧
      (addInstrumentToInventory exDbC7 4 (some "S2") none).1.nextInstrumentId = newIt.id + 1 :=
  (claim_C7_fresh_ids exDbC7 4 (some "S2") none (by decide)).2.1 (by decide)

/-! Claim C8 -/

/-- The SECTION of the joined type row of an instrument. -/
def typeSectionName (ts : List InstrumentType) (it : Instrument) : String :=
  ((typeFor ts it.typeId).map (fun t => t.sectionName)).getD ""

/-- The TYPE_NAME of the joined type row of an instrument. -/
def typeNameOf (ts : List InstrumentType) (it : Instrument) : String :=
  ((typeFor ts it.typeId).map (fun t => t.typeName)).getD ""

theorem instrAssignLe_iff (ts : List InstrumentType) (a b : Instrument) :
    instrAssignLe ts a b ↔
      (availFirstRank a.checkedOutTo < availFirstRank b.checkedOutTo ∨
       (availFirstRank a.checkedOutTo = availFirstRank b.checkedOutTo ∧
        (typeSectionName ts a < typeSectionName ts b ∨
         (typeSectionName ts a = typeSectionName ts b ∧
          (typeNameOf ts a < typeNameOf ts b ∨
           (typeNameOf ts a = typeNameOf ts b ∧ a.id ≤ b.id)))))) := by
  unfold instrAssignLe instrAssignKey typeSectionName typeNameOf
  simp [Prod.Lex.le_iff]

theorem uniformAssignLe_iff (a b : Uniform) :
    uniformAssignLe a b ↔
      (availFirstRank a.checkedOutTo < availFirstRank b.checkedOutTo ∨
       (availFirstRank a.checkedOutTo = availFirstRank b.checkedOutTo ∧ a.id ≤ b.id)) := by
  unfold uniformAssignLe uniformAssignKey
  simp [Prod.Lex.le_iff]

theorem shakoAssignLe_iff (a b : Shako) :
    shakoAssignLe a b ↔
      (availFirstRank a.checkedOutTo < availFirstRank b.checkedOutTo ∨
       (availFirstRank a.checkedOutTo = availFirstRank b.checkedOutTo ∧ a.id ≤ b.id)) := by
  unfold shakoAssignLe shakoAssignKey
  simp [Prod.Lex.le_iff]

/-- Modelled from the spec wording for claim C8: the checked-out-first
ordering the claim asserts for a listing (checked-out items sort before
available ones). -/
def specCheckedOutFirstShako (l : List Shako) : Prop :=
  l.Pairwise (fun a b =>
    (if a.checkedOutTo = none then (1 : Int) else 0) ≤
      (if b.checkedOutTo = none then 1 else 0))

instance (l : List Shako) : Decidable (specCheckedOutFirstShako l) := by
  unfold specCheckedOutFirstShako
  infer_instance

/-- A database with shako 1 AVAILABLE and shako 2 checked out to
student 1. -/
def exDbC8 : DB :=
  ⟨[⟨1, "ANA", "BELL", "Freshman", "BRASS", none, none⟩],
   [], initDB.instrumentTypes, [], [],
   [⟨1, none, none, none, none⟩, ⟨2, none, none, some 1, some "2026-01-01"⟩],
   1, 1, 3⟩

/-- Counterexample to C8 as stated: the shako assignments view puts the
AVAILABLE shako 1 before the checked-out shako 2 — (CHECKED_OUT_TO IS
NULL) DESC sorts available items first — so the checked-out-first ordering
the claim asserts fails. -/
theorem claim_C8_counterexample :
    ¬ specCheckedOutFirstShako (viewShakoAssignments exDbC8) := by decide

/-- Claim C8 amended: each assignments view lists exactly the items of its
kind (for instruments, those joined to an existing type), ordered with
AVAILABLE items first and checked-out items after them; ties are broken
for instruments by the section of the type, then type name, then item id, and
for uniforms and shakos by item id. -/
theorem claim_C8_assignment_order (db : DB) :
    ((viewInstrumentAssignments db).Pairwise (fun a b =>
        availFirstRank a.checkedOutTo < availFirstRank b.checkedOutTo ∨
        (availFirstRank a.checkedOutTo = availFirstRank b.checkedOutTo ∧
         (typeSectionName db.instrumentTypes a < typeSectionName db.instrumentTypes b ∨
          (typeSectionName db.instrumentTypes a = typeSectionName db.instrumentTypes b ∧
           (typeNameOf db.instrumentTypes a < typeNameOf db.instrumentTypes b ∨
            (typeNameOf db.instrumentTypes a = typeNameOf db.instrumentTypes b ∧
             a.id ≤ b.id)))))) ∧
     (viewInstrumentAssignments db).Perm
       (db.instruments.filter (fun it => (typeFor db.instrumentTypes it.typeId).isSome))) ∧
    ((viewUniformAssignments db).Pairwise (fun a b =>
        availFirstRank a.checkedOutTo < availFirstRank b.checkedOutTo ∨
        (availFirstRank a.checkedOutTo = availFirstRank b.checkedOutTo ∧ a.id ≤ b.id)) ∧
     (viewUniformAssignments db).Perm db.uniforms) ∧
    ((viewShakoAssignments db).Pairwise (fun a b =>
        availFirstRank a.checkedOutTo < availFirstRank b.checkedOutTo ∨
        (availFirstRank a.checkedOutTo = availFirstRank b.checkedOutTo ∧ a.id ≤ b.id)) ∧
     (viewShakoAssignments db).Perm db.shakos) := by
  refine ⟨⟨?_, viewInstrumentAssignments_perm db⟩, ⟨?_, viewUniformAssignments_perm db⟩,
    ⟨?_, viewShakoAssignments_perm db⟩⟩
  · exact (viewInstrumentAssignments_sorted db).imp
      (fun h => (instrAssignLe_iff db.instrumentTypes _ _).mp h)
  · exact (viewUniformAssignments_sorted db).imp
      (fun h => (uniformAssignLe_iff _ _).mp h)
  · exact (viewShakoAssignments_sorted db).imp
      (fun h => (shakoAssignLe_iff _ _).mp h)

/-! Claim C5 -/

theorem instrCheckoutUpdate_types (items : List Instrument) (iid sid : Int) (today : String)
    (ts : List InstrumentType)
    (h : ∀ it ∈ items, (typeFor ts it.typeId).isSome = true) :
    ∀ it ∈ instrCheckoutUpdate items iid sid today,
      (typeFor ts it.typeId).isSome = true := by
  intro it hm
  rw [instrCheckoutUpdate, List.mem_map] at hm
  obtain ⟨b, hb, hbe⟩ := hm
  by_cases hp : (b.id == iid && b.checkedOutTo == none) = true
  · rw [if_pos hp] at hbe
    rw [← hbe]
    exact h b hb
  · rw [if_neg hp] at hbe
    rw [← hbe]
    exact h b hb

theorem instrClear_types (items : List Instrument) (iid : Int) (ts : List InstrumentType)
    (h : ∀ it ∈ items, (typeFor ts it.typeId).isSome = true) :
    ∀ it ∈ instrClear items iid, (typeFor ts it.typeId).isSome = true := by
  intro it hm
  rw [instrClear, List.mem_map] at hm
  obtain ⟨b, hb, hbe⟩ := hm
  by_cases hp : (b.id == iid) = true
  · rw [if_pos hp] at hbe
    rw [← hbe]
    exact h b hb
  · rw [if_neg hp] at hbe
    rw [← hbe]
    exact h b hb

theorem mem_holders_instrClear (items : List Instrument) (iid x : Int)
    (hx : x ∈ holdersOf (fun it : Instrument => it.checkedOutTo) (instrClear items iid)) :
    ∃ b ∈ items, b.id ≠ iid ∧ b.checkedOutTo = some x := by
  unfold holdersOf instrClear at hx
  rw [List.mem_filterMap] at hx
  obtain ⟨a, ha, hax⟩ := hx
  rw [List.mem_map] at ha
  obtain ⟨b, hb, hba⟩ := ha
  by_cases hq : (b.id == iid) = true
  · rw [if_pos hq] at hba
    rw [← hba] at hax
    simp at hax
  · rw [if_neg hq] at hba
    exact ⟨b, hb, by simpa using hq, hba ▸ hax⟩

theorem mem_of_mem_instrCheckoutUpdate_ne (items : List Instrument) (iid sid : Int)
    (today : String) (b : Instrument)
    (hb : b ∈ instrCheckoutUpdate items iid sid today) (hbid : b.id ≠ iid) : b ∈ items := by
  rw [instrCheckoutUpdate, List.mem_map] at hb
  obtain ⟨c, hc, hcb⟩ := hb
  by_cases hp : (c.id == iid && c.checkedOutTo == none) = true
  · rw [if_pos hp] at hcb
    exfalso
    apply hbid
    rw [← hcb]
    exact (by simpa using ((Bool.and_eq_true _ _).mp hp).1 : c.id = iid)
  · rw [if_neg hp] at hcb
    rwa [← hcb]

/-- A database with one student and no uniforms. -/
def exDbC5 : DB :=
  ⟨[⟨1, "ANA", "BELL", "Freshman", "BRASS", none, none⟩],
   [], initDB.instrumentTypes, [], [], [], 1, 1, 1⟩

/-- Counterexample to C5 as stated: checking out a uniform CREATES a brand
new UNIFORMS row (the operation is an INSERT, not a bind of an existing
item), so items are created anew by checkout for the Uniform (and Shako)
kinds. -/
theorem claim_C5_counterexample :
    (checkoutUniform exDbC5 1 none none none none none "2026-02-02").2 =
      CheckoutResult.success ∧
    (checkoutUniform exDbC5 1 none none none none none "2026-02-02").1.uniforms.length =
      exDbC5.uniforms.length + 1 := by decide

/-- Claim C5 amended, restricted to the Instrument kind (for Uniform and
Shako the code has no checkout-an-existing-item operation at all: checkout
inserts a fresh checked-out row): checkout(item, s1); return(item);
checkout(item, s2) all succeed and leave that same item checked out to s2,
under the preconditions that the item is AVAILABLE and neither student
already holds an instrument (s2 may equal s1); instrument checkout and
return never create or delete items, so the instrument count is unchanged
at every step and the cycle can repeat indefinitely. -/
theorem claim_C5_cycle (db : DB) (s1 s2 iid : Int) (t1 t3 : String)
    (hids : (db.instruments.map (fun it => it.id)).Nodup)
    (hhold : (holdersOf (fun it : Instrument => it.checkedOutTo) db.instruments).Nodup)
    (htypes : ∀ it ∈ db.instruments, (typeFor db.instrumentTypes it.typeId).isSome = true)
    (hs1 : studentExistsB db s1 = true) (hs2 : studentExistsB db s2 = true)
    (hitem : ∃ it ∈ db.instruments, it.id = iid ∧ it.checkedOutTo = none)
    (hh1 : ¬ ∃ it ∈ db.instruments, it.checkedOutTo = some s1)
    (hh2 : s2 = s1 ∨ ¬ ∃ it ∈ db.instruments, it.checkedOutTo = some s2) :
    (checkoutInstrument db s1 false iid t1).2 = .success ∧
    (returnInstrument (checkoutInstrument db s1 false iid t1).1 iid).2 = .returned ∧
    (checkoutInstrument
      (returnInstrument (checkoutInstrument db s1 false iid t1).1 iid).1
      s2 false iid t3).2 = .success ∧
    (∃ it ∈ (checkoutInstrument
        (returnInstrument (checkoutInstrument db s1 false iid t1).1 iid).1
        s2 false iid t3).1.instruments, it.id = iid ∧ it.checkedOutTo = some s2) ∧
    (checkoutInstrument db s1 false iid t1).1.instruments.length =
      db.instruments.length ∧
    (returnInstrument (checkoutInstrument db s1 false iid t1).1 iid).1.instruments.length
      = db.instruments.length ∧
    (checkoutInstrument
      (returnInstrument (checkoutInstrument db s1 false iid t1).1 iid).1
      s2 false iid t3).1.instruments.length = db.instruments.length := by
  obtain ⟨it0, hm0, hid0, hco0⟩ := hitem
  have h1succ : (checkoutInstrument db s1 false iid t1).2 = .success :=
    checkoutInstrument_success_of db s1 iid t1 hids hhold hs1 ⟨it0, hm0, hid0, hco0⟩
      (fun it hm _ => htypes it hm)
      (fun hm => hh1 ((holds_iff_mem_holders db.instruments s1).mpr hm))
  have heq1 : (checkoutInstrument db s1 false iid t1).1 =
      { db with instruments := instrCheckoutUpdate db.instruments iid s1 t1 } :=
    checkoutInstrument_success_state db s1 false iid t1 h1succ
  have hu0 : ({ it0 with checkedOutTo := some s1, checkedOutDate := some t1 } : Instrument)
      ∈ instrCheckoutUpdate db.instruments iid s1 t1 :=
    updated_mem_instrCheckoutUpdate db.instruments iid s1 t1 it0 hm0 (by simp [hid0, hco0])
  have hU1types := instrCheckoutUpdate_types db.instruments iid s1 t1 db.instrumentTypes htypes
  have hU1hold := checkoutInstrument_success_nodup_holders db s1 false iid t1 h1succ
  have h2 : returnInstrument
      { db with instruments := instrCheckoutUpdate db.instruments iid s1 t1 } iid =
      ({ db with instruments :=
          instrClear (instrCheckoutUpdate db.instruments iid s1 t1) iid }, .returned) := by
    apply returnInstrument_spec
    · exact ⟨_, hu0, by simp, hU1types _ hu0⟩
    · exact ⟨_, hu0, hid0⟩
  have hU2ids : (((instrClear (instrCheckoutUpdate db.instruments iid s1 t1) iid).map
      (fun it => it.id))).Nodup := by
    rw [instrClear_map_id, instrCheckoutUpdate_map_id]
    exact hids
  have hU2hold : (holdersOf (fun it : Instrument => it.checkedOutTo)
      (instrClear (instrCheckoutUpdate db.instruments iid s1 t1) iid)).Nodup :=
    (holders_instrClear_sublist _ _).nodup hU1hold
  have hc0 : ({ it0 with checkedOutTo := none, checkedOutDate := none } : Instrument)
      ∈ instrClear (instrCheckoutUpdate db.instruments iid s1 t1) iid :=
    cleared_mem_instrClear (instrCheckoutUpdate db.instruments iid s1 t1) iid
      ({ it0 with checkedOutTo := some s1, checkedOutDate := some t1 }) hu0 (by simp [hid0])
  have hni2 : s2 ∉ holdersOf (fun it : Instrument => it.checkedOutTo)
      (instrClear (instrCheckoutUpdate db.instruments iid s1 t1) iid) := by
    intro hmem
    obtain ⟨b, hbU1, hbid, hbco⟩ := mem_holders_instrClear _ iid s2 hmem
    have hbdb : b ∈ db.instruments :=
      mem_of_mem_instrCheckoutUpdate_ne db.instruments iid s1 t1 b hbU1 hbid
    rcases hh2 with heq21 | hh2
    · rw [heq21] at hbco
      exact hh1 ⟨b, hbdb, hbco⟩
    · exact hh2 ⟨b, hbdb, hbco⟩
  have hU2types := instrClear_types (instrCheckoutUpdate db.instruments iid s1 t1) iid
    db.instrumentTypes hU1types
  have h3succ : (checkoutInstrument
      { db with instruments := instrClear (instrCheckoutUpdate db.instruments iid s1 t1) iid }
      s2 false iid t3).2 = .success := by
    apply checkoutInstrument_success_of
    · exact hU2ids
    · exact hU2hold
    · exact hs2
    · exact ⟨_, hc0, hid0, rfl⟩
    · exact fun it hm _ => hU2types it hm
    · exact hni2
  have heq3 := checkoutInstrument_success_state
    { db with instruments := instrClear (instrCheckoutUpdate db.instruments iid s1 t1) iid }
    s2 false iid t3 h3succ
  refine ⟨h1succ, ?_, ?_, ?_, ?_, ?_, ?_⟩
  · rw [heq1, h2]
  · rw [heq1, h2]
    exact h3succ
  · rw [heq1, h2, heq3]
    dsimp only
    exact ⟨{ it0 with checkedOutTo := some s2, checkedOutDate := some t3 },
      updated_mem_instrCheckoutUpdate (instrClear (instrCheckoutUpdate db.instruments iid s1 t1) iid)
        iid s2 t3 ({ it0 with checkedOutTo := none, checkedOutDate := none }) hc0
        (by simp [hid0]), hid0, rfl⟩
  · rw [heq1]
    dsimp only
    exact instrCheckoutUpdate_length db.instruments iid s1 t1
  · rw [heq1, h2]
    dsimp only
    rw [instrClear_length, instrCheckoutUpdate_length]
  · rw [heq1, h2, heq3]
    dsimp only
    rw [instrCheckoutUpdate_length, instrClear_length, instrCheckoutUpdate_length]

/-- A database for the C5 witness: two students, instrument 1 available. -/
def exDbC5w : DB :=
  ⟨[⟨1, "ANA", "BELL", "Freshman", "BRASS", none, none⟩,
    ⟨2, "CARL", "DEAN", "Senior", "WOODWIND", none, none⟩],
   [], initDB.instrumentTypes, [⟨1, 4, none, none, none, none⟩], [], [], 2, 1, 1⟩

/-- Witness for the amended C5: the concrete checkout-return-checkout
cycle on instrument 1 with students 1 then 2. -/
theorem claim_C5_witness :
    (checkoutInstrument exDbC5w 1 false 1 "2026-02-02").2 = CheckoutResult.success ∧
    (returnInstrument (checkoutInstrument exDbC5w 1 false 1 "2026-02-02").1 1).2 =
      ReturnResult.returned ∧
    (checkoutInstrument
      (returnInstrument (checkoutInstrument exDbC5w 1 false 1 "2026-02-02").1 1).1
      2 false 1 "2026-03-03").2 = CheckoutResult.success ∧
    (∃ it ∈ (checkoutInstrument
        (returnInstrument (checkoutInstrument exDbC5w 1 false 1 "2026-02-02").1 1).1
        2 false 1 "2026-03-03").1.instruments, it.id = 1 ∧ it.checkedOutTo = some 2) ∧
    (checkoutInstrument exDbC5w 1 false 1 "2026-02-02").1.instruments.length =
      exDbC5w.instruments.length ∧
    (returnInstrument (checkoutInstrument exDbC5w 1 false 1 "2026-02-02").1 1).1.instruments.length
      = exDbC5w.instruments.length ∧
    (checkoutInstrument
      (returnInstrument (checkoutInstrument exDbC5w 1 false 1 "2026-02-02").1 1).1
      2 false 1 "2026-03-03").1.instruments.length = exDbC5w.instruments.length :=
  claim_C5_cycle exDbC5w 1 2 1 "2026-02-02" "2026-03-03" (by decide) (by decide) (by decide)
    (by decide) (by decide) (by decide) (by decide) (Or.inr (by decide))
